import Mathlib

/-! Invoice lifecycle and invoice table rendering of `server.js`.

A shallow embedding of the invoice routes of `src/server.js` (create, get,
set status, delete) over the two SQLite tables `invoices` and `invoice_items`,
and of the part of the PDF route that draws the item table and the totals.

Modelling choices.

* A JavaScript number is an IEEE 754 double.  A finite double is given by its
  exact rational value, and every product, sum and quotient is the exact result
  rounded to the nearest double, the even one at a tie, with overflow to
  `Infinity`.  `NaN` is `none` of `Option Dbl`.  The sign of a zero is not kept:
  no route below can tell `-0` from `0`.
* A number position of the request body holds a JSON number, `null`, or nothing
  (`undefined`); a JSON number is read as the double nearest to its literal.
  A text position is `none` when the body gives `null` for it; the database
  driver binds an omitted key as it binds `null`, so `none` covers both.
* A bound `null` and a bound `NaN` are stored by SQLite as `NULL`; a `NULL` in
  a `NOT NULL` column makes the statement fail and the statement changes nothing.
* Foreign keys are enforced, so `ON DELETE CASCADE` of `invoice_items` is live.
  The authenticated account id is the id of an existing `users` row.
* `created_at` is not kept: no route modelled here reads it.
* The PDF is the sequence of calls made on the PDFKit document.
-/

namespace InvoiceServer

/-! ## Numbers -/

/-- A JavaScript number other than `NaN`: a finite double, by its exact value,
or one of the two infinities. -/
inductive Dbl
  | fin (q : ℚ)
  | posInf
  | negInf
deriving DecidableEq

/-- Nearest natural number to `n / d`, the even one at a tie. -/
def roundHalfEven (n d : Nat) : Nat :=
  if 2 * (n % d) < d then n / d
  else if d < 2 * (n % d) then n / d + 1
  else if n / d % 2 = 0 then n / d else n / d + 1

/-- The number of halvings that bring `n` below 2, counted within the fuel. -/
def log2Fuel : Nat → Nat → Nat
  | 0, _ => 0
  | fuel + 1, n => if n < 2 then 0 else log2Fuel fuel (n / 2) + 1

/-- The `k` with `2 ^ k ≤ n < 2 ^ (k + 1)`, for positive `n`. -/
def log2Nat (n : Nat) : Nat := log2Fuel n n

/-- The integer `e` with `2 ^ e ≤ n / d < 2 ^ (e + 1)`, for positive `n` and `d`. -/
def floorLog2 (n d : Nat) : Int :=
  let e0 : Int := (log2Nat n : Int) - (log2Nat d : Int)
  if e0 < 0 then (if d ≤ n * 2 ^ (-e0).toNat then e0 else e0 - 1)
  else (if d * 2 ^ e0.toNat ≤ n then e0 else e0 - 1)

/-- The double nearest to `n / d`, for positive `n` and `d`. -/
def roundPos (n d : Nat) : Dbl :=
  let k : Int := max (floorLog2 n d - 52) (-1074)
  if k < 0 then
    let m := roundHalfEven (n * 2 ^ (-k).toNat) d
    Dbl.fin (mkRat m (2 ^ (-k).toNat))
  else
    let m := roundHalfEven n (d * 2 ^ k.toNat)
    if 2 ^ 1024 ≤ m * 2 ^ k.toNat then Dbl.posInf else Dbl.fin ((m * 2 ^ k.toNat : Nat) : ℚ)

/-- The number with the opposite sign. -/
def Dbl.neg : Dbl → Dbl
  | Dbl.fin q => Dbl.fin (-q)
  | Dbl.posInf => Dbl.negInf
  | Dbl.negInf => Dbl.posInf

/-- The double nearest to a rational number, the one with an even mantissa at
a tie, an infinity beyond the largest double: the rounding that every
arithmetic operation and the reading of a JSON number literal apply. -/
def toDouble (q : ℚ) : Dbl :=
  if q.num = 0 then Dbl.fin 0
  else if 0 < q.num then roundPos q.num.natAbs q.den
  else (roundPos q.num.natAbs q.den).neg

/-! ## Numbers as text -/

/-- Number of decimal digits of a natural number (1 for 0). -/
def decLen (n : Nat) : Nat := (Nat.toDigits 10 n).length

/-- The integer `n` with `10 ^ (n - 1) ≤ p / q < 10 ^ n`, for positive `p` and `q`. -/
def decExponent (p q : Nat) : Int :=
  let n0 : Int := (decLen p : Int) - (decLen q : Int)
  if n0 < 0 then (if q ≤ p * 10 ^ (-n0).toNat then n0 + 1 else n0)
  else (if q * 10 ^ n0.toNat ≤ p then n0 + 1 else n0)

/-- The value `s * 10 ^ e`. -/
def decValue (s : Nat) (e : Int) : ℚ :=
  if e < 0 then mkRat s (10 ^ (-e).toNat) else ((s * 10 ^ e.toNat : Nat) : ℚ)

/-- Shortest digits: the least `k` from `k` on, within the fuel, for which a
`k`-digit decimal `s * 10 ^ (n - k)` rounds to `p / q`, with that `s`, the one
nearest to `p / q` (the even one at a tie). -/
def shortestDigits (p q : Nat) (n : Int) : Nat → Nat → Nat × Nat
  | 0, k => (p * 10 ^ (k - n).toNat / q, k)
  | fuel + 1, k =>
    let e : Int := n - k
    let lo : Nat := if e < 0 then p * 10 ^ (-e).toNat / q else p / (q * 10 ^ e.toNat)
    let x : ℚ := mkRat p q
    let okLo := decide (toDouble (decValue lo e) = toDouble x) && decide (lo ≠ 0)
    let okHi := decide (toDouble (decValue (lo + 1) e) = toDouble x)
    let dLo := x - decValue lo e
    let dHi := decValue (lo + 1) e - x
    if okLo && okHi then
      (if dLo < dHi then (lo, k) else if dHi < dLo then (lo + 1, k)
       else if lo % 2 = 0 then (lo, k) else (lo + 1, k))
    else if okLo then (lo, k)
    else if okHi then (lo + 1, k)
    else shortestDigits p q n fuel (k + 1)

/-- Text of a positive finite number, `Number::toString` steps 5 to 10. -/
def posToString (p q : Nat) : String :=
  let n0 := decExponent p q
  let sk := shortestDigits p q n0 17 1
  -- a candidate `10 ^ k` is the one-digit `1` one place up
  let s := if sk.1 = 10 ^ sk.2 then 1 else sk.1
  let k := if sk.1 = 10 ^ sk.2 then 1 else sk.2
  let n : Int := if sk.1 = 10 ^ sk.2 then n0 + 1 else n0
  let ds := Nat.toDigits 10 s
  if (k : Int) ≤ n ∧ n ≤ 21 then
    String.mk (ds ++ List.replicate (n - k).toNat '0')
  else if 0 < n ∧ n ≤ 21 then
    String.mk (ds.take n.toNat ++ ['.'] ++ ds.drop n.toNat)
  else if -6 < n ∧ n ≤ 0 then
    String.mk (['0', '.'] ++ List.replicate (-n).toNat '0' ++ ds)
  else
    let ex : Int := n - 1
    let exs := (if ex < 0 then "-" else "+") ++ toString ex.natAbs
    if k = 1 then String.mk ds ++ "e" ++ exs
    else String.mk (ds.take 1 ++ ['.'] ++ ds.drop 1) ++ "e" ++ exs

/-- The text `Number.prototype.toString()` gives for a number that is not
`NaN`: the shortest digits that read back as the same double, in plain or
exponent form by the size of the number. -/
def jsNumToString : Dbl → String
  | Dbl.posInf => "Infinity"
  | Dbl.negInf => "-Infinity"
  | Dbl.fin q =>
    if q.num = 0 then "0"
    else (if q.num < 0 then "-" else "") ++ posToString q.num.natAbs q.den

/-- The text `toFixed(2)` gives for a number that is not `NaN`: the exact
value of the double rounded to the nearest hundredth, the larger one at a tie;
from 10^21 on, the text of `toString`. -/
def jsToFixed2 : Dbl → String
  | Dbl.posInf => "Infinity"
  | Dbl.negInf => "-Infinity"
  | Dbl.fin q =>
    if 10 ^ 21 * q.den ≤ q.num.natAbs then jsNumToString (Dbl.fin q)
    else
      let n := (200 * q.num.natAbs + q.den) / (2 * q.den)
      (if q.num < 0 then "-" else "") ++ toString (n / 100) ++ "." ++
        toString (n % 100 / 10) ++ toString (n % 10)

/-- The sign of a number: 1, 0 or -1. -/
def Dbl.sgn : Dbl → Int
  | Dbl.fin q => Int.sign q.num
  | Dbl.posInf => 1
  | Dbl.negInf => -1

/-- The comparison `x > 0`. -/
def Dbl.isPos : Dbl → Bool
  | Dbl.fin q => decide (0 < q)
  | Dbl.posInf => true
  | Dbl.negInf => false

/-- JavaScript `*`; `none` is `NaN`. -/
def jsMul : Option Dbl → Option Dbl → Option Dbl
  | some (Dbl.fin a), some (Dbl.fin b) => some (toDouble (a * b))
  | some a, some b =>
    if a.sgn * b.sgn = 0 then none
    else if 0 < a.sgn * b.sgn then some Dbl.posInf else some Dbl.negInf
  | _, _ => none

/-- JavaScript `+` on numbers; `none` is `NaN`. -/
def jsAdd : Option Dbl → Option Dbl → Option Dbl
  | some (Dbl.fin a), some (Dbl.fin b) => some (toDouble (a + b))
  | some (Dbl.fin _), some b => some b
  | some a, some (Dbl.fin _) => some a
  | some Dbl.posInf, some Dbl.posInf => some Dbl.posInf
  | some Dbl.negInf, some Dbl.negInf => some Dbl.negInf
  | _, _ => none

/-- JavaScript `x / 100`; `none` is `NaN`. -/
def jsDiv100 : Option Dbl → Option Dbl
  | some (Dbl.fin a) => some (toDouble (a / 100))
  | some Dbl.posInf => some Dbl.posInf
  | some Dbl.negInf => some Dbl.negInf
  | none => none

/-- What a number position of a JSON body holds. -/
inductive JsonNum
  /-- The key is absent: the property reads `undefined`. -/
  | undefined
  /-- The key is `null`. -/
  | null
  /-- The key is a number literal of this value. -/
  | num (q : ℚ)
deriving DecidableEq

/-- The number an arithmetic operator makes of the property: `undefined` is
`NaN`, `null` is 0, a literal is its nearest double. -/
def JsonNum.toNumber : JsonNum → Option Dbl
  | JsonNum.undefined => none
  | JsonNum.null => some (Dbl.fin 0)
  | JsonNum.num q => some (toDouble q)

/-- The SQL value the property is bound as: `NULL` unless it is a number. -/
def JsonNum.toSql : JsonNum → Option Dbl
  | JsonNum.undefined => none
  | JsonNum.null => none
  | JsonNum.num q => some (toDouble q)

/-- The number an arithmetic operator makes of a column read back from the
database: `NULL` reads as `null`, which counts 0. -/
def nullAsZero : Option Dbl → Option Dbl
  | none => some (Dbl.fin 0)
  | some d => some d

/-! ## Data model -/

/-- One element of `items` in the body of `POST /api/invoices`. -/
structure ItemInput where
  description : Option String
  quantity : JsonNum
  rate : JsonNum
deriving DecidableEq

/-- The body of `POST /api/invoices` (server.js 192-202). -/
structure CreateRequest where
  invoiceNumber : Option String
  clientName : Option String
  clientEmail : Option String
  clientAddress : Option String
  issueDate : Option String
  dueDate : Option String
  items : List ItemInput
  taxRate : JsonNum
  notes : Option String
deriving DecidableEq

/-- A row of table `invoices` (server.js 36-53).  Columns declared `NOT NULL`
have a plain type, the others an `Option`. -/
structure InvoiceRow where
  id : Nat
  user_id : Nat
  invoice_number : String
  client_name : String
  client_email : Option String
  client_address : Option String
  issue_date : String
  due_date : String
  status : Option String
  subtotal : Dbl
  tax_rate : Option Dbl
  tax_amount : Option Dbl
  total : Dbl
  notes : Option String
deriving DecidableEq

/-- A row of table `invoice_items` (server.js 55-63). -/
structure ItemRow where
  id : Nat
  invoice_id : Nat
  description : String
  quantity : Dbl
  rate : Dbl
  amount : Dbl
deriving DecidableEq

/-- The two tables, each with the counter that `AUTOINCREMENT` keeps for it
(the largest rowid ever handed out). -/
structure Store where
  invoices : List InvoiceRow
  invoiceSeq : Nat
  items : List ItemRow
  itemSeq : Nat
deriving DecidableEq

/-- The database right after the `CREATE TABLE` statements. -/
def Store.empty : Store := ⟨[], 0, [], 0⟩

/-- What a route answers. -/
inductive Response
  /-- Status 200, `{ success, invoiceId, message: 'Invoice created successfully' }` -/
  | created (invoiceId : Nat)
  /-- Status 500, `{ error: 'Failed to create invoice' }` -/
  | createFailed
  /-- Status 404, `{ error: 'Invoice not found' }` -/
  | notFound
  /-- Status 200, `{ success, invoice: { ...invoice, items } }` -/
  | invoice (row : InvoiceRow) (items : List ItemRow)
  /-- Status 200, `{ success, message: 'Invoice status updated' }` -/
  | statusUpdated
  /-- Status 200, `{ success, message: 'Invoice deleted' }` -/
  | deleted
deriving DecidableEq

/-! ## Create invoice -/

/-- The `item.quantity * item.rate` of server.js 205 and 231. -/
def lineAmount (item : ItemInput) : Option Dbl :=
  jsMul item.quantity.toNumber item.rate.toNumber

/-- The totals of server.js 205-207: `subtotal`, `taxAmount`, `total`. -/
def calcTotals (items : List ItemInput) (taxRate : JsonNum) :
    Option Dbl × Option Dbl × Option Dbl :=
  let subtotal := items.foldl (fun sum item =>
    jsAdd sum (jsMul item.quantity.toNumber item.rate.toNumber)) (some (Dbl.fin 0))
  let taxAmount := jsMul subtotal (jsDiv100 taxRate.toNumber)
  let total := jsAdd subtotal taxAmount
  (subtotal, taxAmount, total)

/-- Largest `id` in the `invoices` table, 0 when it is empty. -/
def maxInvoiceId (rows : List InvoiceRow) : Nat :=
  rows.foldr (fun r m => max r.id m) 0

/-- Largest `id` in the `invoice_items` table, 0 when it is empty. -/
def maxItemId (rows : List ItemRow) : Nat :=
  rows.foldr (fun r m => max r.id m) 0

/-- The `INSERT INTO invoices` of server.js 210-222.  It fails, changing
nothing, when a `NOT NULL` column would receive `NULL`; otherwise the row gets
the next `AUTOINCREMENT` id and the default status `'unpaid'`. -/
def insertInvoice (s : Store) (userId : Nat) (req : CreateRequest)
    (subtotal taxAmount total : Option Dbl) : Option (Nat × Store) :=
  match req.invoiceNumber, req.clientName, req.issueDate, req.dueDate, subtotal, total with
  | some number, some name, some issue, some due, some sub, some tot =>
    let invoiceId := max s.invoiceSeq (maxInvoiceId s.invoices) + 1
    let row : InvoiceRow :=
      { id := invoiceId, user_id := userId, invoice_number := number, client_name := name,
        client_email := req.clientEmail, client_address := req.clientAddress,
        issue_date := issue, due_date := due, status := some "unpaid",
        subtotal := sub, tax_rate := req.taxRate.toSql, tax_amount := taxAmount,
        total := tot, notes := req.notes }
    some (invoiceId, { s with invoices := s.invoices ++ [row], invoiceSeq := invoiceId })
  | _, _, _, _, _, _ => none

/-- One `itemStmt.run` of server.js 231: fails when `description`, `quantity`,
`rate` or `amount` would be `NULL`. -/
def insertItem (s : Store) (invoiceId : Nat) (item : ItemInput) : Option Store :=
  match item.description, item.quantity.toSql, item.rate.toSql,
      jsMul item.quantity.toNumber item.rate.toNumber with
  | some d, some q, some r, some a =>
    let itemId := max s.itemSeq (maxItemId s.items) + 1
    some { s with
      items := s.items ++ [⟨itemId, invoiceId, d, q, r, a⟩],
      itemSeq := itemId }
  | _, _, _, _ => none

/-- The loop of server.js 230-232.  The flag is `false` when a statement threw;
the rows inserted before it stay, since no transaction is open. -/
def insertItems (s : Store) (invoiceId : Nat) : List ItemInput → Bool × Store
  | [] => (true, s)
  | item :: rest =>
    match insertItem s invoiceId item with
    | none => (false, s)
    | some s1 => insertItems s1 invoiceId rest

/-- The route `POST /api/invoices` (server.js 190-243). -/
def createInvoice (s : Store) (userId : Nat) (req : CreateRequest) : Response × Store :=
  let (subtotal, taxAmount, total) := calcTotals req.items req.taxRate
  match insertInvoice s userId req subtotal taxAmount total with
  | none => (Response.createFailed, s)
  | some (invoiceId, s1) =>
    match insertItems s1 invoiceId req.items with
    | (true, s2) => (Response.created invoiceId, s2)
    | (false, s2) => (Response.createFailed, s2)

/-! ## Get, set status, delete -/

/-- The `WHERE id = ? AND user_id = ?` of the three routes below. -/
def owns (id userId : Nat) (r : InvoiceRow) : Bool :=
  r.id == id && r.user_id == userId

/-- The route `GET /api/invoices/:id` (server.js 258-268). -/
def getInvoice (s : Store) (userId id : Nat) : Response :=
  match s.invoices.find? (owns id userId) with
  | none => Response.notFound
  | some inv => Response.invoice inv (s.items.filter fun it => it.invoice_id == id)

/-- The route `PATCH /api/invoices/:id/status` (server.js 271-282). -/
def setStatus (s : Store) (userId id : Nat) (status : Option String) : Response × Store :=
  let changes := (s.invoices.filter (owns id userId)).length
  let s1 := { s with
    invoices := s.invoices.map fun r => if owns id userId r then { r with status := status } else r }
  if changes = 0 then (Response.notFound, s1) else (Response.statusUpdated, s1)

/-- The route `DELETE /api/invoices/:id` (server.js 285-294); the rows of
`invoice_items` that point at a deleted invoice go with it (server.js 62). -/
def deleteInvoice (s : Store) (userId id : Nat) : Response × Store :=
  let gone := s.invoices.filter (owns id userId)
  let s1 := { s with
    invoices := s.invoices.filter fun r => !owns id userId r,
    items := s.items.filter fun it => gone.all fun r => r.id != it.invoice_id }
  if gone.length = 0 then (Response.notFound, s1) else (Response.deleted, s1)

/-! ## Reachable stores -/

/-- A call of one of the three mutating invoice routes. -/
inductive Op
  | create (userId : Nat) (req : CreateRequest)
  | setStatus (userId id : Nat) (status : Option String)
  | delete (userId id : Nat)

/-- The store after a call. -/
def applyOp (s : Store) : Op → Store
  | Op.create u req => (createInvoice s u req).2
  | Op.setStatus u id st => (setStatus s u id st).2
  | Op.delete u id => (deleteInvoice s u id).2

/-- Stores that some sequence of calls produces from the empty database. -/
inductive Reachable : Store → Prop
  | empty : Reachable Store.empty
  | step (s : Store) (op : Op) : Reachable s → Reachable (applyOp s op)

/-- The ids that create calls have answered with success, after one more
call: a create adds its id when it answers 200. -/
def recordOp (s : Store) (ok : List Nat) : Op → List Nat
  | Op.create u req =>
    match (createInvoice s u req).1 with
    | Response.created id => id :: ok
    | _ => ok
  | _ => ok

/-- Stores that some sequence of calls produces from the empty database,
together with the ids that the create calls of the sequence answered with
success. -/
inductive ReachableWith : Store → List Nat → Prop
  | empty : ReachableWith Store.empty []
  | step (s : Store) (ok : List Nat) (op : Op) :
      ReachableWith s ok → ReachableWith (applyOp s op) (recordOp s ok op)

/-- The line items stored for an invoice id. -/
def itemsOf (s : Store) (id : Nat) : List ItemRow :=
  s.items.filter fun it => it.invoice_id == id

/-- The amounts of item rows added up the way the create route adds: from 0,
in row order, in double arithmetic. -/
def storedSum (rows : List ItemRow) : Option Dbl :=
  rows.foldl (fun sum it => jsAdd sum (some it.amount)) (some (Dbl.fin 0))

/-- The primary key of `invoices`: no two rows share an id. -/
def PrimaryKey (s : Store) : Prop :=
  (s.invoices.map fun r => r.id).Nodup

/-! ## Item table and totals of the PDF -/

/-- The two number-to-text conversions of JavaScript that the PDF route uses:
`numToString` is `Number.prototype.toString` (also what a template literal
applies), `toFixed2` is `toFixed(2)`. -/
structure NumFmt where
  numToString : Dbl → String
  toFixed2 : Dbl → String

/-- A call on the PDFKit document. -/
inductive PdfOp
  /-- Call `doc.fontSize(size)` -/
  | fontSize (size : Nat)
  /-- Call `doc.font(name)` -/
  | font (name : String)
  /-- Call `doc.text(str, x, y)`, with `{ width }` when given -/
  | text (str : String) (x y : ℚ) (width : Option ℚ)
  /-- Call `doc.moveTo(x1, y1).lineTo(x2, y2).stroke()` -/
  | rule (x1 y1 x2 y2 : ℚ)
deriving DecidableEq

/-- The four texts of one item row (server.js 376-379). -/
def itemRow (fmt : NumFmt) (item : ItemRow) (y : ℚ) : List PdfOp :=
  [ PdfOp.text item.description 50 y (some 240),
    PdfOp.text (fmt.numToString item.quantity) 300 y none,
    PdfOp.text ("$" ++ fmt.toFixed2 item.rate) 370 y none,
    PdfOp.text ("$" ++ fmt.toFixed2 item.amount) 470 y none ]

/-- The `items.forEach` of server.js 375-381 with its running `y`: the calls so
far and the `y` after them. -/
def renderItems (fmt : NumFmt) (items : List ItemRow) (y : ℚ) : List PdfOp × ℚ :=
  items.foldl (fun acc item => (acc.1 ++ itemRow fmt item acc.2, acc.2 + 25)) ([], y)

/-- The tax line of server.js 390-394 and the `y` after it.  `null > 0` is
false; `toFixed` on a `NULL` tax amount throws, which is `none`. -/
def renderTax (fmt : NumFmt) (invoice : InvoiceRow) (y : ℚ) : Option (List PdfOp × ℚ) :=
  match invoice.tax_rate with
  | none => some ([], y)
  | some r =>
    if r.isPos then
      match invoice.tax_amount with
      | none => none
      | some a =>
        some ([ PdfOp.text ("Tax (" ++ fmt.numToString r ++ "%):") 400 (y + 20) none,
                PdfOp.text ("$" ++ fmt.toFixed2 a) 470 (y + 20) none ], y + 20)
    else some ([], y)

/-- The totals block of server.js 385-399, entered with the `y` of the closing
rule. -/
def renderTotals (fmt : NumFmt) (invoice : InvoiceRow) (y0 : ℚ) : Option (List PdfOp) :=
  let y := y0 + 15
  let subtotal :=
    [ PdfOp.text "Subtotal:" 400 y none,
      PdfOp.text ("$" ++ fmt.toFixed2 invoice.subtotal) 470 y none ]
  match renderTax fmt invoice y with
  | none => none
  | some (tax, y1) =>
    let y2 := y1 + 20
    some (subtotal ++ tax ++
      [ PdfOp.fontSize 12, PdfOp.font "Helvetica-Bold",
        PdfOp.text "Total:" 400 y2 none,
        PdfOp.text ("$" ++ fmt.toFixed2 invoice.total) 470 y2 none ])

/-- The header of the item table (server.js 364-372). -/
def tableHeader (tableTop : ℚ) : List PdfOp :=
  [ PdfOp.fontSize 10, PdfOp.font "Helvetica-Bold",
    PdfOp.text "Description" 50 tableTop none,
    PdfOp.text "Qty" 300 tableTop none,
    PdfOp.text "Rate" 370 tableTop none,
    PdfOp.text "Amount" 470 tableTop none,
    PdfOp.rule 50 (tableTop + 15) 550 (tableTop + 15),
    PdfOp.font "Helvetica" ]

/-- Item table and totals (server.js 357-399); `tableTop` is `doc.y` on
entry. -/
def renderTable (fmt : NumFmt) (tableTop : ℚ) (invoice : InvoiceRow) (items : List ItemRow) :
    Option (List PdfOp) :=
  let rows := renderItems fmt items (tableTop + 25)
  match renderTotals fmt invoice rows.2 with
  | none => none
  | some totals => some (tableHeader tableTop ++ rows.1 ++ [PdfOp.rule 50 rows.2 550 rows.2] ++ totals)

/-- The two conversions as JavaScript computes them. -/
def jsFmt : NumFmt := ⟨jsNumToString, jsToFixed2⟩

/-- Whether the PDF route draws a tax line: `invoice.tax_rate > 0`. -/
def taxed (invoice : InvoiceRow) : Bool :=
  match invoice.tax_rate with
  | some r => r.isPos
  | none => false

/-! ## Derived notions and the worked examples -/

/-- The item has a description and numbers for quantity and rate, so none of
the three is bound as `NULL`. -/
def ItemInput.complete (item : ItemInput) : Bool :=
  item.description.isSome && item.quantity.toSql.isSome && item.rate.toSql.isSome

/-- The id the next `INSERT INTO invoices` receives. -/
def nextInvoiceId (s : Store) : Nat := max s.invoiceSeq (maxInvoiceId s.invoices) + 1

/-- The tax and total columns of a row are what the create route computes from
its subtotal and tax rate: `tax_amount = subtotal * (tax_rate / 100)` and
`total = subtotal + tax_amount` in double arithmetic, a `NULL` tax rate
counting 0. -/
def TotalsConsistent (r : InvoiceRow) : Prop :=
  r.tax_amount = jsMul (some r.subtotal) (jsDiv100 (nullAsZero r.tax_rate)) ∧
  some r.total = jsAdd (some r.subtotal) r.tax_amount

/-- The row that a create inserts when its `INSERT INTO invoices` succeeds. -/
def createdRow (s : Store) (u : Nat) (req : CreateRequest) (number name issue due : String)
    (sub tot : Dbl) : InvoiceRow :=
  { id := nextInvoiceId s, user_id := u, invoice_number := number, client_name := name,
    client_email := req.clientEmail, client_address := req.clientAddress,
    issue_date := issue, due_date := due, status := some "unpaid",
    subtotal := sub, tax_rate := req.taxRate.toSql,
    tax_amount := (calcTotals req.items req.taxRate).2.1,
    total := tot, notes := req.notes }

/-- The foreign key of `invoice_items`: every item row points at a stored
invoice. -/
def ForeignKey (s : Store) : Prop :=
  ∀ it ∈ s.items, ∃ r ∈ s.invoices, r.id = it.invoice_id

/-- The create request of the end-to-end example of the specification. -/
def exampleRequest : CreateRequest :=
  { invoiceNumber := some "INV-001", clientName := some "Acme",
    clientEmail := some "billing@acme.test", clientAddress := some "1 Main Street",
    issueDate := some "2024-01-01", dueDate := some "2024-01-31",
    items := [⟨some "Design", JsonNum.num 10, JsonNum.num 50⟩,
              ⟨some "Hosting", JsonNum.num 1, JsonNum.num 120⟩],
    taxRate := JsonNum.num 8, notes := some "Net 30" }

/-- The store after account 1 has sent `exampleRequest` to the empty database. -/
def exampleStore : Store :=
  (createInvoice Store.empty 1 exampleRequest).2

/-- The invoice row of `exampleStore`; its tax amount and total are the doubles
nearest to 49.6 and 669.6. -/
def exampleRow : InvoiceRow :=
  { id := 1, user_id := 1, invoice_number := "INV-001", client_name := "Acme",
    client_email := some "billing@acme.test", client_address := some "1 Main Street",
    issue_date := "2024-01-01", due_date := "2024-01-31", status := some "unpaid",
    subtotal := Dbl.fin 620, tax_rate := some (Dbl.fin 8), tax_amount := some (toDouble 49.6),
    total := toDouble 669.6, notes := some "Net 30" }

/-- The example request with the description of its second item `null`. -/
def truncatedRequest : CreateRequest :=
  { exampleRequest with
    items := [⟨some "Design", JsonNum.num 10, JsonNum.num 50⟩,
              ⟨none, JsonNum.num 1, JsonNum.num 120⟩] }

/-- The example request with one item of quantity 1 and rate 100, at tax
rate 7. -/
def roundingRequest : CreateRequest :=
  { exampleRequest with
    items := [⟨some "Service", JsonNum.num 1, JsonNum.num 100⟩], taxRate := JsonNum.num 7 }

/-- The example request with an empty invoice number and a client name of
blanks. -/
def blankRequest : CreateRequest :=
  { exampleRequest with invoiceNumber := some "", clientName := some "  " }

/-- The example request with one refund line of quantity -1. -/
def negativeRequest : CreateRequest :=
  { exampleRequest with items := [⟨some "Refund", JsonNum.num (-1), JsonNum.num 50⟩] }

/-- The example invoice with a `NULL` tax rate, as a create with
`taxRate: null` stores it. -/
def untaxedRow : InvoiceRow :=
  { exampleRow with tax_rate := none, tax_amount := some (Dbl.fin 0), total := Dbl.fin 620 }

/-- The store after account 1 has sent `truncatedRequest` and then
`exampleRequest` to the empty database. -/
def mixedStore : Store :=
  (createInvoice (createInvoice Store.empty 1 truncatedRequest).2 1 exampleRequest).2

/-! ## Lemmas on the arithmetic -/

theorem jsAdd_none_left (x : Option Dbl) : jsAdd none x = none := by
  cases x <;> rfl

theorem jsAdd_none_right (x : Option Dbl) : jsAdd x none = none := by
  cases x with
  | none => rfl
  | some a => cases a <;> rfl

theorem jsMul_none_right (x : Option Dbl) : jsMul x none = none := by
  cases x with
  | none => rfl
  | some a => cases a <;> rfl

theorem foldl_jsAdd_none (l : List (Option Dbl)) : l.foldl jsAdd none = none := by
  induction l with
  | nil => rfl
  | cons a l ih => rw [List.foldl_cons, jsAdd_none_left, ih]

theorem foldl_jsAdd_some (l : List (Option Dbl)) :
    ∀ (init : Option Dbl) (v : Dbl), l.foldl jsAdd init = some v → ∀ a ∈ l, a ≠ none := by
  induction l with
  | nil => intro _ _ _ a ha; cases ha
  | cons b l ih =>
    intro init v h a ha
    rw [List.foldl_cons] at h
    rcases List.mem_cons.1 ha with rfl | ha
    · intro hb
      rw [hb, jsAdd_none_right, foldl_jsAdd_none] at h
      cases h
    · exact ih _ v h a ha

theorem calcTotals_eq (items : List ItemInput) (t : JsonNum) :
    calcTotals items t =
      ((items.map lineAmount).foldl jsAdd (some (Dbl.fin 0)),
       jsMul ((items.map lineAmount).foldl jsAdd (some (Dbl.fin 0))) (jsDiv100 t.toNumber),
       jsAdd ((items.map lineAmount).foldl jsAdd (some (Dbl.fin 0)))
         (jsMul ((items.map lineAmount).foldl jsAdd (some (Dbl.fin 0))) (jsDiv100 t.toNumber))) := by
  simp only [calcTotals, List.foldl_map, lineAmount]

theorem storedSum_eq (rows : List ItemRow) :
    storedSum rows = (rows.map fun r => some r.amount).foldl jsAdd (some (Dbl.fin 0)) := by
  simp only [storedSum, List.foldl_map]

theorem calcTotals_undefined (items : List ItemInput) :
    (calcTotals items JsonNum.undefined).2.2 = none := by
  rw [calcTotals_eq]
  simp only [JsonNum.toNumber, jsDiv100, jsMul_none_right, jsAdd_none_right]

theorem toNumber_eq_nullAsZero (t : JsonNum) (h : t ≠ JsonNum.undefined) :
    t.toNumber = nullAsZero t.toSql := by
  cases t with
  | undefined => exact absurd rfl h
  | null => rfl
  | num q => rfl

/-! ## Lemmas on the create route -/

theorem insertItem_cases (s : Store) (id : Nat) (item : ItemInput) :
    (insertItem s id item = none ∧
      (item.description = none ∨ item.quantity.toSql = none ∨ item.rate.toSql = none ∨
        lineAmount item = none)) ∨
    ∃ (d : String) (q r a : Dbl),
      item.description = some d ∧ item.quantity.toSql = some q ∧ item.rate.toSql = some r ∧
      lineAmount item = some a ∧
      insertItem s id item = some { s with
        items := s.items ++ [⟨max s.itemSeq (maxItemId s.items) + 1, id, d, q, r, a⟩],
        itemSeq := max s.itemSeq (maxItemId s.items) + 1 } := by
  unfold insertItem lineAmount
  cases item.description with
  | none => left; exact ⟨rfl, Or.inl rfl⟩
  | some d =>
    cases item.quantity.toSql with
    | none => left; exact ⟨rfl, Or.inr (Or.inl rfl)⟩
    | some q =>
      cases item.rate.toSql with
      | none => left; exact ⟨rfl, Or.inr (Or.inr (Or.inl rfl))⟩
      | some r =>
        cases jsMul item.quantity.toNumber item.rate.toNumber with
        | none => left; exact ⟨rfl, Or.inr (Or.inr (Or.inr rfl))⟩
        | some a => right; exact ⟨d, q, r, a, rfl, rfl, rfl, rfl, rfl⟩

/-- What the item loop leaves: the invoices untouched, item rows appended that
all point at the invoice, and, when no statement threw, one row per item of the
request, in order, with the bound values. -/
theorem insertItems_frame (id : Nat) :
    ∀ (items : List ItemInput) (s : Store), ∃ new : List ItemRow,
      (insertItems s id items).2.invoices = s.invoices ∧
      (insertItems s id items).2.invoiceSeq = s.invoiceSeq ∧
      (insertItems s id items).2.items = s.items ++ new ∧
      (∀ r ∈ new, r.invoice_id = id) ∧
      ((insertItems s id items).1 = true →
        new.map (fun r => (some r.description, some r.quantity, some r.rate, some r.amount))
          = items.map (fun i => (i.description, i.quantity.toSql, i.rate.toSql, lineAmount i))) ∧
      ((∀ item ∈ items, item.description ≠ none ∧ item.quantity.toSql ≠ none ∧
          item.rate.toSql ≠ none ∧ lineAmount item ≠ none) →
        (insertItems s id items).1 = true) := by
  intro items
  induction items with
  | nil => intro s; exact ⟨[], by simp [insertItems]⟩
  | cons item rest ih =>
    intro s
    rcases insertItem_cases s id item with ⟨hnone, hwhy⟩ | ⟨d, q, r, a, hd, hq, hr, ha, hsome⟩
    · refine ⟨[], ?_⟩
      simp only [insertItems, hnone, List.append_nil, List.not_mem_nil, false_implies,
        implies_true, true_and, Bool.false_eq_true]
      intro hall
      have h := hall item (List.mem_cons_self _ _)
      rcases hwhy with e | e | e | e
      · exact h.1 e
      · exact h.2.1 e
      · exact h.2.2.1 e
      · exact h.2.2.2 e
    · obtain ⟨new, h1, h2, h3, h4, h5, h6⟩ := ih
        { s with
          items := s.items ++ [⟨max s.itemSeq (maxItemId s.items) + 1, id, d, q, r, a⟩],
          itemSeq := max s.itemSeq (maxItemId s.items) + 1 }
      refine ⟨⟨max s.itemSeq (maxItemId s.items) + 1, id, d, q, r, a⟩ :: new, ?_⟩
      simp only [insertItems, hsome]
      refine ⟨h1, h2, ?_, ?_, ?_, ?_⟩
      · rw [h3]; simp
      · intro x hx
        rcases List.mem_cons.1 hx with rfl | hx
        · rfl
        · exact h4 x hx
      · intro hflag
        simp only [List.map_cons, h5 hflag, hd, hq, hr, ha]
      · intro hall
        exact h6 (fun i hi => hall i (List.mem_cons_of_mem _ hi))

theorem insertInvoice_cases (s : Store) (u : Nat) (req : CreateRequest)
    (subtotal taxAmount total : Option Dbl) :
    (insertInvoice s u req subtotal taxAmount total = none ∧
      (req.invoiceNumber = none ∨ req.clientName = none ∨ req.issueDate = none ∨
        req.dueDate = none ∨ subtotal = none ∨ total = none)) ∨
    ∃ (number name issue due : String) (sub tot : Dbl),
      req.invoiceNumber = some number ∧ req.clientName = some name ∧
      req.issueDate = some issue ∧ req.dueDate = some due ∧ subtotal = some sub ∧
      total = some tot ∧
      insertInvoice s u req subtotal taxAmount total = some (nextInvoiceId s, { s with
        invoices := s.invoices ++
          [{ id := nextInvoiceId s, user_id := u, invoice_number := number, client_name := name,
             client_email := req.clientEmail, client_address := req.clientAddress,
             issue_date := issue, due_date := due, status := some "unpaid",
             subtotal := sub, tax_rate := req.taxRate.toSql, tax_amount := taxAmount,
             total := tot, notes := req.notes }],
        invoiceSeq := nextInvoiceId s }) := by
  unfold insertInvoice nextInvoiceId
  cases req.invoiceNumber with
  | none => left; exact ⟨rfl, Or.inl rfl⟩
  | some number =>
  cases req.clientName with
  | none => left; exact ⟨rfl, Or.inr (Or.inl rfl)⟩
  | some name =>
  cases req.issueDate with
  | none => left; exact ⟨rfl, Or.inr (Or.inr (Or.inl rfl))⟩
  | some issue =>
  cases req.dueDate with
  | none => left; exact ⟨rfl, Or.inr (Or.inr (Or.inr (Or.inl rfl)))⟩
  | some due =>
  cases subtotal with
  | none => left; exact ⟨rfl, Or.inr (Or.inr (Or.inr (Or.inr (Or.inl rfl))))⟩
  | some sub =>
  cases total with
  | none => left; exact ⟨rfl, Or.inr (Or.inr (Or.inr (Or.inr (Or.inr rfl))))⟩
  | some tot => right; exact ⟨number, name, issue, due, sub, tot, rfl, rfl, rfl, rfl, rfl, rfl, rfl⟩

theorem createInvoice_def (s : Store) (u : Nat) (req : CreateRequest) :
    createInvoice s u req =
      match insertInvoice s u req (calcTotals req.items req.taxRate).1
          (calcTotals req.items req.taxRate).2.1 (calcTotals req.items req.taxRate).2.2 with
      | none => (Response.createFailed, s)
      | some (invoiceId, s1) =>
        match insertItems s1 invoiceId req.items with
        | (true, s2) => (Response.created invoiceId, s2)
        | (false, s2) => (Response.createFailed, s2) := rfl

theorem createInvoice_missing (s : Store) (u : Nat) (req : CreateRequest)
    (h : req.invoiceNumber = none ∨ req.clientName = none ∨ req.issueDate = none ∨
      req.dueDate = none ∨ req.taxRate = JsonNum.undefined) :
    createInvoice s u req = (Response.createFailed, s) := by
  rw [createInvoice_def]
  rcases insertInvoice_cases s u req (calcTotals req.items req.taxRate).1
      (calcTotals req.items req.taxRate).2.1 (calcTotals req.items req.taxRate).2.2 with
    ⟨hnone, _⟩ | ⟨number, name, issue, due, sub, tot, h1, h2, h3, h4, _, h6, _⟩
  · rw [hnone]
  · exfalso
    rcases h with h | h | h | h | h
    · rw [h] at h1; cases h1
    · rw [h] at h2; cases h2
    · rw [h] at h3; cases h3
    · rw [h] at h4; cases h4
    · rw [h, calcTotals_undefined] at h6; cases h6

theorem createInvoice_of_insert (s : Store) (u : Nat) (req : CreateRequest) (id : Nat)
    (s1 : Store)
    (h : insertInvoice s u req (calcTotals req.items req.taxRate).1
      (calcTotals req.items req.taxRate).2.1 (calcTotals req.items req.taxRate).2.2
        = some (id, s1)) :
    createInvoice s u req =
      match insertItems s1 id req.items with
      | (true, s2) => (Response.created id, s2)
      | (false, s2) => (Response.createFailed, s2) := by
  rw [createInvoice_def, h]

/-- Whatever the request, the create route either fails in its first statement
and leaves the store as it was, or appends one invoice row with the next id and
consistent totals, followed by item rows that all point at it; and when it
answers success the subtotal of the row is the sum of the appended amounts. -/
theorem createInvoice_frame (s : Store) (u : Nat) (req : CreateRequest) :
    createInvoice s u req = (Response.createFailed, s) ∨
    ∃ (row : InvoiceRow) (new : List ItemRow),
      (createInvoice s u req).2.invoices = s.invoices ++ [row] ∧
      (createInvoice s u req).2.items = s.items ++ new ∧
      (createInvoice s u req).2.invoiceSeq = nextInvoiceId s ∧
      row.id = nextInvoiceId s ∧ TotalsConsistent row ∧
      (∀ r ∈ new, r.invoice_id = nextInvoiceId s) ∧
      ((createInvoice s u req).1 = Response.createFailed ∨
        ((createInvoice s u req).1 = Response.created (nextInvoiceId s) ∧
          some row.subtotal = storedSum new)) := by
  rcases insertInvoice_cases s u req (calcTotals req.items req.taxRate).1
      (calcTotals req.items req.taxRate).2.1 (calcTotals req.items req.taxRate).2.2 with
    ⟨hnone, _⟩ | ⟨number, name, issue, due, sub, tot, _, _, _, _, hsub, htot, hsome⟩
  · left; rw [createInvoice_def, hnone]
  · right
    rw [createInvoice_of_insert s u req _ _ hsome]
    obtain ⟨new, h1, h2, h3, h4, h5, _⟩ := insertItems_frame (nextInvoiceId s) req.items
      { s with
        invoices := s.invoices ++
          [{ id := nextInvoiceId s, user_id := u, invoice_number := number, client_name := name,
             client_email := req.clientEmail, client_address := req.clientAddress,
             issue_date := issue, due_date := due, status := some "unpaid",
             subtotal := sub, tax_rate := req.taxRate.toSql,
             tax_amount := (calcTotals req.items req.taxRate).2.1,
             total := tot, notes := req.notes }],
        invoiceSeq := nextInvoiceId s }
    have hcons : TotalsConsistent
        { id := nextInvoiceId s, user_id := u, invoice_number := number, client_name := name,
          client_email := req.clientEmail, client_address := req.clientAddress,
          issue_date := issue, due_date := due, status := some "unpaid",
          subtotal := sub, tax_rate := req.taxRate.toSql,
          tax_amount := (calcTotals req.items req.taxRate).2.1,
          total := tot, notes := req.notes } := by
      have hne : req.taxRate ≠ JsonNum.undefined := by
        intro e
        rw [e, calcTotals_undefined] at htot
        cases htot
      rw [calcTotals_eq] at hsub htot
      simp only at hsub htot
      refine ⟨?_, ?_⟩
      · show (calcTotals req.items req.taxRate).2.1 = _
        rw [calcTotals_eq]
        simp only
        rw [hsub, toNumber_eq_nullAsZero _ hne]
      · show some tot = jsAdd (some sub) (calcTotals req.items req.taxRate).2.1
        rw [calcTotals_eq]
        simp only
        rw [← htot, hsub]
    rcases hI : insertItems _ _ req.items with ⟨b, s2⟩
    rw [hI] at h1 h2 h3 h5
    simp only at h1 h2 h3 h5
    refine ⟨_, new, ?_, ?_, ?_, rfl, hcons, h4, ?_⟩
    · cases b <;> exact h1
    · cases b <;> exact h3
    · cases b <;> exact h2
    · cases b with
      | false => left; rfl
      | true =>
        right
        refine ⟨rfl, ?_⟩
        have h6 := congrArg
          (List.map fun p : Option String × Option Dbl × Option Dbl × Option Dbl => p.2.2.2)
          (h5 rfl)
        simp only [List.map_map, Function.comp_def] at h6
        rw [storedSum_eq, h6]
        rw [calcTotals_eq] at hsub
        exact hsub.symm

/-- A create whose required values are all present and whose total is a number
answers success and appends the invoice row and one item row per item. -/
theorem createInvoice_ok (s : Store) (u : Nat) (req : CreateRequest)
    (number name issue due : String) (tot : Dbl)
    (hnum : req.invoiceNumber = some number) (hname : req.clientName = some name)
    (hissue : req.issueDate = some issue) (hdue : req.dueDate = some due)
    (hitems : ∀ item ∈ req.items, item.description ≠ none ∧ item.quantity.toSql ≠ none ∧
      item.rate.toSql ≠ none)
    (htot : (calcTotals req.items req.taxRate).2.2 = some tot) :
    ∃ (sub : Dbl) (s1 : Store) (new : List ItemRow),
      (calcTotals req.items req.taxRate).1 = some sub ∧
      createInvoice s u req = (Response.created (nextInvoiceId s), s1) ∧
      s1.invoices = s.invoices ++ [createdRow s u req number name issue due sub tot] ∧
      s1.invoiceSeq = nextInvoiceId s ∧
      s1.items = s.items ++ new ∧
      (∀ r ∈ new, r.invoice_id = nextInvoiceId s) ∧
      new.map (fun r => (some r.description, some r.quantity, some r.rate, some r.amount))
        = req.items.map (fun i => (i.description, i.quantity.toSql, i.rate.toSql, lineAmount i)) := by
  have hsub : ∃ sub, (calcTotals req.items req.taxRate).1 = some sub := by
    cases h : (calcTotals req.items req.taxRate).1 with
    | some sub => exact ⟨sub, rfl⟩
    | none =>
      rw [calcTotals_eq] at h htot
      simp only at h htot
      rw [h, jsAdd_none_left] at htot
      cases htot
  obtain ⟨sub, hsub⟩ := hsub
  have hamount : ∀ item ∈ req.items, lineAmount item ≠ none := by
    intro item hitem
    have h := hsub
    rw [calcTotals_eq] at h
    exact foldl_jsAdd_some _ _ sub h (lineAmount item) (List.mem_map.2 ⟨item, hitem, rfl⟩)
  rcases insertInvoice_cases s u req (calcTotals req.items req.taxRate).1
      (calcTotals req.items req.taxRate).2.1 (calcTotals req.items req.taxRate).2.2 with
    ⟨_, hwhy⟩ | ⟨number1, name1, issue1, due1, sub1, tot1, h1, h2, h3, h4, h5, h6, hsome⟩
  · exfalso
    rcases hwhy with e | e | e | e | e | e
    · rw [e] at hnum; cases hnum
    · rw [e] at hname; cases hname
    · rw [e] at hissue; cases hissue
    · rw [e] at hdue; cases hdue
    · rw [e] at hsub; cases hsub
    · rw [e] at htot; cases htot
  · rw [hnum] at h1; rw [hname] at h2; rw [hissue] at h3; rw [hdue] at h4
    rw [hsub] at h5; rw [htot] at h6
    cases h1; cases h2; cases h3; cases h4; cases h5; cases h6
    rw [createInvoice_of_insert s u req _ _ hsome]
    obtain ⟨new, k1, k2, k3, k4, k5, k6⟩ := insertItems_frame (nextInvoiceId s) req.items
      { s with
        invoices := s.invoices ++ [createdRow s u req number name issue due sub tot],
        invoiceSeq := nextInvoiceId s }
    have hflag := k6 (fun item hitem =>
      ⟨(hitems item hitem).1, (hitems item hitem).2.1, (hitems item hitem).2.2,
        hamount item hitem⟩)
    have k5 := k5 hflag
    simp only [createdRow] at hflag k1 k2 k3 k4 k5 ⊢
    rcases hI : insertItems _ _ req.items with ⟨b, s2⟩
    rw [hI] at hflag k1 k2 k3
    simp only at hflag k1 k2 k3
    subst hflag
    exact ⟨sub, s2, new, hsub, rfl, k1, k2, k3, k4, k5⟩

/-! ## Lemmas on the other routes -/

theorem setStatus_store (s : Store) (u id : Nat) (st : Option String) :
    (setStatus s u id st).2 = { s with
      invoices := s.invoices.map fun r =>
        if owns id u r then { r with status := st } else r } := by
  unfold setStatus
  simp only
  split <;> rfl

theorem deleteInvoice_store (s : Store) (u id : Nat) :
    (deleteInvoice s u id).2 = { s with
      invoices := s.invoices.filter fun r => !owns id u r,
      items := s.items.filter fun it =>
        (s.invoices.filter (owns id u)).all fun r => r.id != it.invoice_id } := by
  unfold deleteInvoice
  simp only
  split <;> rfl

theorem setStatus_ids (s : Store) (u id : Nat) (st : Option String) :
    (setStatus s u id st).2.invoices.map (fun r => r.id) = s.invoices.map (fun r => r.id) := by
  rw [setStatus_store]
  simp only [List.map_map]
  apply List.map_congr_left
  intro r _
  simp only [Function.comp]
  split <;> rfl

theorem le_maxInvoiceId (rows : List InvoiceRow) (r : InvoiceRow) (h : r ∈ rows) :
    r.id ≤ maxInvoiceId rows := by
  induction rows with
  | nil => cases h
  | cons a rest ih =>
    simp only [maxInvoiceId, List.foldr_cons]
    rcases List.mem_cons.1 h with rfl | h
    · exact le_max_left _ _
    · exact le_trans (ih h) (le_max_right _ _)

theorem lt_nextInvoiceId (s : Store) (r : InvoiceRow) (h : r ∈ s.invoices) :
    r.id < nextInvoiceId s := by
  have h1 := le_maxInvoiceId s.invoices r h
  have h2 : maxInvoiceId s.invoices ≤ max s.invoiceSeq (maxInvoiceId s.invoices) :=
    le_max_right _ _
  unfold nextInvoiceId
  omega

theorem seq_lt_nextInvoiceId (s : Store) : s.invoiceSeq < nextInvoiceId s := by
  have h2 : s.invoiceSeq ≤ max s.invoiceSeq (maxInvoiceId s.invoices) := le_max_left _ _
  unfold nextInvoiceId
  omega

theorem primaryKey_applyOp (s : Store) (op : Op) (h : PrimaryKey s) :
    PrimaryKey (applyOp s op) := by
  cases op with
  | create u req =>
    simp only [applyOp]
    rcases createInvoice_frame s u req with h1 | ⟨row, new, h1, _, _, h3, _, _, _⟩
    · rw [h1]; exact h
    · unfold PrimaryKey at h ⊢
      rw [h1, List.map_append, List.nodup_append]
      refine ⟨h, by simp, ?_⟩
      intro a ha hb
      simp only [List.map_cons, List.map_nil, List.mem_singleton] at hb
      obtain ⟨r, hr, rfl⟩ := List.mem_map.1 ha
      have := lt_nextInvoiceId s r hr
      omega
  | setStatus u id st =>
    simp only [applyOp]
    unfold PrimaryKey at h ⊢
    rw [setStatus_ids]
    exact h
  | delete u id =>
    simp only [applyOp]
    unfold PrimaryKey at h ⊢
    rw [deleteInvoice_store]
    exact h.sublist (List.Sublist.map _ (List.filter_sublist _))

theorem foreignKey_applyOp (s : Store) (op : Op) (h : ForeignKey s) :
    ForeignKey (applyOp s op) := by
  cases op with
  | create u req =>
    simp only [applyOp]
    rcases createInvoice_frame s u req with h1 | ⟨row, new, h1, h2, _, h3, _, h6, _⟩
    · rw [h1]; exact h
    · intro it hit
      rw [h2] at hit
      rw [h1]
      rcases List.mem_append.1 hit with hit | hit
      · obtain ⟨r, hr, e⟩ := h it hit
        exact ⟨r, List.mem_append_left _ hr, e⟩
      · exact ⟨row, by simp, by rw [h3, h6 it hit]⟩
  | setStatus u id st =>
    simp only [applyOp]
    intro it hit
    rw [setStatus_store] at hit
    obtain ⟨r, hr, e⟩ := h it hit
    have hmem : r.id ∈ (setStatus s u id st).2.invoices.map (fun r => r.id) := by
      rw [setStatus_ids]; exact List.mem_map.2 ⟨r, hr, rfl⟩
    obtain ⟨r1, hr1, e1⟩ := List.mem_map.1 hmem
    exact ⟨r1, hr1, e1.trans e⟩
  | delete u id =>
    simp only [applyOp]
    intro it hit
    rw [deleteInvoice_store] at hit ⊢
    simp only [List.mem_filter, List.all_eq_true, bne_iff_ne, ne_eq] at hit
    obtain ⟨hit, hgone⟩ := hit
    obtain ⟨r, hr, e⟩ := h it hit
    refine ⟨r, ?_, e⟩
    simp only [List.mem_filter, Bool.not_eq_true_eq_eq_false, Bool.not_eq_eq_eq_not, Bool.not_true]
    refine ⟨hr, ?_⟩
    by_contra hown
    simp only [Bool.not_eq_false] at hown
    exact hgone r ⟨hr, hown⟩ e

theorem totals_applyOp (s : Store) (op : Op) (h : ∀ r ∈ s.invoices, TotalsConsistent r) :
    ∀ r ∈ (applyOp s op).invoices, TotalsConsistent r := by
  cases op with
  | create u req =>
    simp only [applyOp]
    rcases createInvoice_frame s u req with h1 | ⟨row, new, h1, _, _, _, h5, _, _⟩
    · rw [h1]; exact h
    · intro r hr
      rw [h1] at hr
      rcases List.mem_append.1 hr with hr | hr
      · exact h r hr
      · rw [List.mem_singleton.1 hr]; exact h5
  | setStatus u id st =>
    simp only [applyOp]
    intro r hr
    rw [setStatus_store] at hr
    obtain ⟨r0, hr0, rfl⟩ := List.mem_map.1 hr
    have := h r0 hr0
    split
    · exact this
    · exact this
  | delete u id =>
    simp only [applyOp]
    intro r hr
    rw [deleteInvoice_store] at hr
    exact h r (List.mem_filter.1 hr).1

theorem reachable_primaryKey (s : Store) (h : Reachable s) : PrimaryKey s := by
  induction h with
  | empty => simp [PrimaryKey, Store.empty]
  | step s op _ ih => exact primaryKey_applyOp s op ih

theorem reachable_foreignKey (s : Store) (h : Reachable s) : ForeignKey s := by
  induction h with
  | empty => intro it hit; simp [Store.empty] at hit
  | step s op _ ih => exact foreignKey_applyOp s op ih

theorem reachable_totals (s : Store) (h : Reachable s) :
    ∀ r ∈ s.invoices, TotalsConsistent r := by
  induction h with
  | empty => intro r hr; simp [Store.empty] at hr
  | step s op _ ih => exact totals_applyOp s op ih

theorem reachable_of_with (s : Store) (ok : List Nat) (h : ReachableWith s ok) :
    Reachable s := by
  induction h with
  | empty => exact Reachable.empty
  | step s ok op _ ih => exact Reachable.step s op ih

/-- A row with consistent totals has a tax amount that is not `NULL`. -/
theorem taxAmount_of_consistent (r : InvoiceRow) (h : TotalsConsistent r) :
    ∃ a : Dbl, r.tax_amount = some a := by
  cases ha : r.tax_amount with
  | some a => exact ⟨a, rfl⟩
  | none =>
    have h2 := h.2
    rw [ha, jsAdd_none_right] at h2
    cases h2

theorem itemsOf_append (s : Store) (new : List ItemRow) (id : Nat) (items : List ItemRow)
    (h : s.items = items ++ new) :
    itemsOf s id = (items.filter fun it => it.invoice_id == id) ++
      (new.filter fun it => it.invoice_id == id) := by
  simp [itemsOf, h]

theorem row_eq_of_id (s : Store) (hpk : PrimaryKey s) (r inv : InvoiceRow)
    (hr : r ∈ s.invoices) (hinv : inv ∈ s.invoices) (e : r.id = inv.id) : r = inv :=
  List.inj_on_of_nodup_map hpk hr hinv e

/-- One call keeps: the recorded ids are at most the invoice counter, and the
subtotal of every stored invoice with a recorded id is the sum of the amounts
of its stored items. -/
theorem recorded_applyOp (s : Store) (ok : List Nat) (op : Op) (hpk : PrimaryKey s)
    (hfk : ForeignKey s) (hb : ∀ id ∈ ok, id ≤ s.invoiceSeq)
    (hs : ∀ r ∈ s.invoices, r.id ∈ ok → some r.subtotal = storedSum (itemsOf s r.id)) :
    (∀ id ∈ recordOp s ok op, id ≤ (applyOp s op).invoiceSeq) ∧
    ∀ r ∈ (applyOp s op).invoices, r.id ∈ recordOp s ok op →
      some r.subtotal = storedSum (itemsOf (applyOp s op) r.id) := by
  cases op with
  | create u req =>
    rcases createInvoice_frame s u req with h1 | ⟨row, new, h1, h2, hseq, hid, _, h4, hresp⟩
    · simp only [applyOp, recordOp, h1]
      exact ⟨hb, hs⟩
    · have hold : ∀ r ∈ s.invoices,
          itemsOf (createInvoice s u req).2 r.id = itemsOf s r.id := by
        intro r hr
        rw [itemsOf_append _ new r.id s.items h2]
        have hlt := lt_nextInvoiceId s r hr
        have hnone : (new.filter fun it => it.invoice_id == r.id) = [] := by
          rw [List.filter_eq_nil_iff]
          intro it hit
          have := h4 it hit
          simp only [beq_iff_eq]
          omega
        rw [hnone, List.append_nil]
        rfl
      have hnew : itemsOf (createInvoice s u req).2 row.id = new := by
        rw [itemsOf_append _ new row.id s.items h2]
        have hnone : (s.items.filter fun it => it.invoice_id == row.id) = [] := by
          rw [List.filter_eq_nil_iff]
          intro it hit
          obtain ⟨r0, hr0, e⟩ := hfk it hit
          have := lt_nextInvoiceId s r0 hr0
          simp only [beq_iff_eq]
          omega
        have hall : (new.filter fun it => it.invoice_id == row.id) = new := by
          rw [List.filter_eq_self]
          intro it hit
          simp only [beq_iff_eq]
          rw [h4 it hit, hid]
        rw [hnone, hall, List.nil_append]
      have hsq := seq_lt_nextInvoiceId s
      rcases hresp with hf | ⟨hc, hsum⟩
      · simp only [applyOp, recordOp, hf]
        refine ⟨?_, ?_⟩
        · intro id hidm
          have := hb id hidm
          rw [hseq]
          omega
        · intro r hr hrok
          rw [h1] at hr
          rcases List.mem_append.1 hr with hr | hr
          · rw [hold r hr]
            exact hs r hr hrok
          · rw [List.mem_singleton.1 hr, hid] at hrok
            have := hb _ hrok
            omega
      · simp only [applyOp, recordOp, hc]
        refine ⟨?_, ?_⟩
        · intro id hidm
          rw [hseq]
          rcases List.mem_cons.1 hidm with rfl | hidm
          · exact le_refl _
          · have := hb id hidm
            omega
        · intro r hr hrok
          rw [h1] at hr
          rcases List.mem_append.1 hr with hr | hr
          · rw [hold r hr]
            have hlt := lt_nextInvoiceId s r hr
            rcases List.mem_cons.1 hrok with e | hrok
            · omega
            · exact hs r hr hrok
          · rw [List.mem_singleton.1 hr, hnew]
            exact hsum
  | setStatus u id st =>
    simp only [applyOp, recordOp]
    rw [setStatus_store]
    refine ⟨hb, ?_⟩
    intro r hr hrok
    obtain ⟨r0, hr0, rfl⟩ := List.mem_map.1 hr
    by_cases ho : owns id u r0 = true
    · simp only [ho, if_true] at hrok ⊢
      exact hs r0 hr0 hrok
    · simp only [ho, if_false] at hrok ⊢
      exact hs r0 hr0 hrok
  | delete u id =>
    simp only [applyOp, recordOp]
    rw [deleteInvoice_store]
    refine ⟨hb, ?_⟩
    intro r hr hrok
    simp only [List.mem_filter, Bool.not_eq_true_eq_eq_false, Bool.not_eq_eq_eq_not,
      Bool.not_true] at hr
    obtain ⟨hr, hown⟩ := hr
    rw [hs r hr hrok]
    simp only [itemsOf, List.filter_filter]
    congr 1
    apply List.filter_congr
    intro it _
    by_cases e : it.invoice_id = r.id
    · have hall : ((s.invoices.filter (owns id u)).all fun g => g.id != it.invoice_id) = true := by
        simp only [List.all_eq_true, bne_iff_ne, ne_eq, List.mem_filter]
        rintro g ⟨hg, hgo⟩ hge
        have hgr : g = r := row_eq_of_id s hpk g r hg hr (hge.trans e)
        rw [hgr, hown] at hgo
        exact Bool.noConfusion hgo
      rw [hall]
      simp
    · simp [e]

theorem reachableWith_recorded (s : Store) (ok : List Nat) (h : ReachableWith s ok) :
    (∀ id ∈ ok, id ≤ s.invoiceSeq) ∧
    ∀ r ∈ s.invoices, r.id ∈ ok → some r.subtotal = storedSum (itemsOf s r.id) := by
  induction h with
  | empty =>
    refine ⟨?_, ?_⟩
    · intro id hid; cases hid
    · intro r hr; simp [Store.empty] at hr
  | step s ok op hs ih =>
    exact recorded_applyOp s ok op (reachable_primaryKey s (reachable_of_with s ok hs))
      (reachable_foreignKey s (reachable_of_with s ok hs)) ih.1 ih.2

theorem owns_eq_true (id u : Nat) (r : InvoiceRow) :
    owns id u r = true ↔ r.id = id ∧ r.user_id = u := by
  simp [owns]

theorem owns_other_false (s : Store) (hpk : PrimaryKey s) (inv : InvoiceRow)
    (hinv : inv ∈ s.invoices) (a : Nat) (hne : a ≠ inv.user_id) :
    ∀ r ∈ s.invoices, owns inv.id a r = false := by
  intro r hr
  cases h : owns inv.id a r with
  | false => rfl
  | true =>
    obtain ⟨e1, e2⟩ := (owns_eq_true _ _ _).1 h
    have := row_eq_of_id s hpk r inv hr hinv e1
    rw [this] at e2
    exact absurd e2.symm hne

theorem owns_owner (s : Store) (hpk : PrimaryKey s) (inv : InvoiceRow)
    (hinv : inv ∈ s.invoices) :
    ∀ r ∈ s.invoices, owns inv.id inv.user_id r = (r.id == inv.id) := by
  intro r hr
  by_cases e : r.id = inv.id
  · have := row_eq_of_id s hpk r inv hr hinv e
    rw [this]
    simp [owns]
  · simp [owns, e]

theorem routes_not_found (s : Store) (u id : Nat) (st : Option String)
    (h : ∀ r ∈ s.invoices, owns id u r = false) :
    getInvoice s u id = Response.notFound ∧
    deleteInvoice s u id = (Response.notFound, s) ∧
    setStatus s u id st = (Response.notFound, s) := by
  have hfind : s.invoices.find? (owns id u) = none := by
    rw [List.find?_eq_none]
    intro r hr
    simp [h r hr]
  have hfilter : s.invoices.filter (owns id u) = [] := by
    rw [List.filter_eq_nil_iff]
    intro r hr
    simp [h r hr]
  have hkeep : (s.invoices.filter fun r => !owns id u r) = s.invoices := by
    rw [List.filter_eq_self]
    intro r hr
    simp [h r hr]
  have hmap : (s.invoices.map fun r => if owns id u r then { r with status := st } else r)
      = s.invoices := by
    conv_rhs => rw [← List.map_id s.invoices]
    apply List.map_congr_left
    intro r hr
    simp [h r hr]
  refine ⟨?_, ?_, ?_⟩
  · simp only [getInvoice, hfind]
  · simp only [deleteInvoice, hfilter, hkeep]
    simp
  · simp only [setStatus, hfilter, hmap]
    simp

theorem exampleStore_eq :
    createInvoice Store.empty 1 exampleRequest =
      (Response.created 1,
        { invoices := [exampleRow], invoiceSeq := 1,
          items := [⟨1, 1, "Design", Dbl.fin 10, Dbl.fin 50, Dbl.fin 500⟩,
                    ⟨2, 1, "Hosting", Dbl.fin 1, Dbl.fin 120, Dbl.fin 120⟩],
          itemSeq := 2 }) := by
  decide!

/-! ## Lemmas on the PDF table -/

theorem renderItems_from (fmt : NumFmt) :
    ∀ (items : List ItemRow) (ops : List PdfOp) (y : ℚ),
      items.foldl (fun acc item => (acc.1 ++ itemRow fmt item acc.2, acc.2 + 25)) (ops, y) =
        (ops ++ (items.mapIdx fun i item => itemRow fmt item (y + 25 * i)).flatten,
          y + 25 * items.length) := by
  intro items
  induction items with
  | nil => intro ops y; simp
  | cons item rest ih =>
    intro ops y
    rw [List.foldl_cons, ih, List.mapIdx_cons]
    have hf : (fun (i : ℕ) (it : ItemRow) => itemRow fmt it (y + 25 + 25 * (i : ℚ))) =
        (fun (i : ℕ) (it : ItemRow) => itemRow fmt it (y + 25 * ((i + 1 : ℕ) : ℚ))) := by
      funext i it
      congr 1
      push_cast
      ring
    rw [hf]
    simp only [List.flatten_cons, List.append_assoc, List.length_cons, Nat.cast_zero, mul_zero,
      add_zero, Prod.mk.injEq, true_and]
    push_cast
    ring

theorem renderItems_eq (fmt : NumFmt) (items : List ItemRow) (y : ℚ) :
    renderItems fmt items y =
      ((items.mapIdx fun i item => itemRow fmt item (y + 25 * i)).flatten,
        y + 25 * items.length) := by
  unfold renderItems
  rw [renderItems_from]
  simp

theorem renderTotals_eq (fmt : NumFmt) (inv : InvoiceRow) (y0 : ℚ)
    (h : taxed inv = true → inv.tax_amount ≠ none) :
    renderTotals fmt inv y0 = some (
      [ PdfOp.text "Subtotal:" 400 (y0 + 15) none,
        PdfOp.text ("$" ++ fmt.toFixed2 inv.subtotal) 470 (y0 + 15) none ] ++
      (match inv.tax_rate, inv.tax_amount with
        | some r, some a =>
          if r.isPos then
            [ PdfOp.text ("Tax (" ++ fmt.numToString r ++ "%):") 400 (y0 + 35) none,
              PdfOp.text ("$" ++ fmt.toFixed2 a) 470 (y0 + 35) none ]
          else []
        | _, _ => []) ++
      [ PdfOp.fontSize 12, PdfOp.font "Helvetica-Bold",
        PdfOp.text "Total:" 400 (if taxed inv then y0 + 55 else y0 + 35) none,
        PdfOp.text ("$" ++ fmt.toFixed2 inv.total) 470 (if taxed inv then y0 + 55 else y0 + 35)
          none ]) := by
  have e1 : y0 + 15 + 20 = y0 + 35 := by ring
  have e2 : y0 + 35 + 20 = y0 + 55 := by ring
  cases hr : inv.tax_rate with
  | none => simp [renderTotals, renderTax, taxed, hr, e1]
  | some r =>
    by_cases hp : r.isPos = true
    · cases ha : inv.tax_amount with
      | none =>
        exfalso
        exact h (by simp [taxed, hr, hp]) ha
      | some a => simp [renderTotals, renderTax, taxed, hr, hp, ha, e1, e2]
    · cases ha : inv.tax_amount with
      | none => simp [renderTotals, renderTax, taxed, hr, hp, e1]
      | some a => simp [renderTotals, renderTax, taxed, hr, hp, e1]

theorem reachable_with_exists (s : Store) (h : Reachable s) : ∃ ok, ReachableWith s ok := by
  induction h with
  | empty => exact ⟨[], ReachableWith.empty⟩
  | step s op _ ih =>
    obtain ⟨ok, hok⟩ := ih
    exact ⟨recordOp s ok op, ReachableWith.step s ok op hok⟩

theorem complete_iff (item : ItemInput) :
    item.complete = true ↔
      item.description ≠ none ∧ item.quantity.toSql ≠ none ∧ item.rate.toSql ≠ none := by
  unfold ItemInput.complete
  cases item.description <;> cases item.quantity.toSql <;> cases item.rate.toSql <;> simp

theorem mixedStore_eq :
    createInvoice (createInvoice Store.empty 1 truncatedRequest).2 1 exampleRequest =
      (Response.created 2,
        { invoices := [exampleRow, { exampleRow with id := 2 }], invoiceSeq := 2,
          items := [⟨1, 1, "Design", Dbl.fin 10, Dbl.fin 50, Dbl.fin 500⟩,
                    ⟨2, 2, "Design", Dbl.fin 10, Dbl.fin 50, Dbl.fin 500⟩,
                    ⟨3, 2, "Hosting", Dbl.fin 1, Dbl.fin 120, Dbl.fin 120⟩],
          itemSeq := 3 }) := by
  decide!

theorem truncatedStore_eq :
    createInvoice Store.empty 1 truncatedRequest =
      (Response.createFailed,
        { invoices := [exampleRow], invoiceSeq := 1,
          items := [⟨1, 1, "Design", Dbl.fin 10, Dbl.fin 50, Dbl.fin 500⟩], itemSeq := 1 }) := by
  decide!

theorem roundingStore_eq :
    createInvoice Store.empty 1 roundingRequest =
      (Response.created 1,
        { invoices := [{ exampleRow with subtotal := Dbl.fin 100, tax_rate := some (Dbl.fin 7),
                                         tax_amount := some (Dbl.fin (7 + 1 / 2 ^ 50)),
                                         total := Dbl.fin 107 }],
          invoiceSeq := 1, items := [⟨1, 1, "Service", Dbl.fin 1, Dbl.fin 100, Dbl.fin 100⟩],
          itemSeq := 1 }) := by
  decide!

/-! ## The arithmetic at known values -/

/-- Products, sums and texts at values where doubles are known to round. -/
theorem double_known_values :
    jsMul (some (toDouble 0.1)) (some (Dbl.fin 3)) = some (toDouble 0.30000000000000004) ∧
    jsAdd (some (toDouble 0.1)) (some (toDouble 0.2)) = some (toDouble 0.30000000000000004) ∧
    jsNumToString (toDouble 0.30000000000000004) = "0.30000000000000004" ∧
    jsMul (some (toDouble 2.5)) (some (toDouble 19.99)) = some (toDouble 49.974999999999994) ∧
    jsMul (some (toDouble 1e308)) (some (Dbl.fin 10)) = some Dbl.posInf ∧
    jsMul (some Dbl.posInf) (some (Dbl.fin 0)) = none ∧
    jsAdd (some Dbl.posInf) (some Dbl.negInf) = none ∧
    jsToFixed2 (toDouble 1.005) = "1.00" ∧
    jsToFixed2 (toDouble 0.125) = "0.13" ∧
    jsNumToString (toDouble 1e21) = "1e+21" ∧
    jsToFixed2 (toDouble 1e21) = "1e+21" ∧
    jsNumToString (toDouble 1e-7) = "1e-7" ∧
    toDouble 9007199254740993 = Dbl.fin 9007199254740992 := by
  decide!

/-- An overflow in the subtotal makes the tax amount `Infinity * 0 = NaN`, the
total `NaN`, and the create fail before anything is written. -/
theorem create_overflow_fails :
    createInvoice Store.empty 1
        { exampleRequest with
          items := [⟨some "Bulk", JsonNum.num 1e308, JsonNum.num 10⟩],
          taxRate := JsonNum.num 0 } =
      (Response.createFailed, Store.empty) := by
  decide!

/-- A `null` quantity counts 0 in the totals and then stops the item loop: the
invoice row (subtotal 500) and the first item stay. -/
theorem create_null_quantity_partway :
    createInvoice Store.empty 1
        { exampleRequest with
          items := [⟨some "Design", JsonNum.num 10, JsonNum.num 50⟩,
                    ⟨some "Hosting", JsonNum.null, JsonNum.num 120⟩] } =
      (Response.createFailed,
        { invoices := [{ exampleRow with subtotal := Dbl.fin 500,
                                         tax_amount := some (Dbl.fin 40),
                                         total := Dbl.fin 540 }],
          invoiceSeq := 1,
          items := [⟨1, 1, "Design", Dbl.fin 10, Dbl.fin 50, Dbl.fin 500⟩], itemSeq := 1 }) := by
  decide!

/-! ## The claims -/

/-- C1 as stated fails: the totals are computed in doubles, not exactly.  For
one item of quantity 1 and rate 100 at tax rate 7 the create stores subtotal
100 and tax amount 7 + 2^-50, which JavaScript prints 7.000000000000001, where
the exact `subtotal * taxRate / 100` is 7; and the stored total 107 is not the
exact sum of the stored subtotal and tax amount. -/
theorem create_rounds_tax_amount :
    createInvoice Store.empty 1 roundingRequest =
      (Response.created 1,
        { invoices := [{ exampleRow with subtotal := Dbl.fin 100, tax_rate := some (Dbl.fin 7),
                                         tax_amount := some (Dbl.fin (7 + 1 / 2 ^ 50)),
                                         total := Dbl.fin 107 }],
          invoiceSeq := 1, items := [⟨1, 1, "Service", Dbl.fin 1, Dbl.fin 100, Dbl.fin 100⟩],
          itemSeq := 1 }) ∧
    (7 + 1 / 2 ^ 50 : ℚ) ≠ 100 * 7 / 100 ∧
    (107 : ℚ) ≠ 100 + (7 + 1 / 2 ^ 50) ∧
    jsNumToString (Dbl.fin (7 + 1 / 2 ^ 50)) = "7.000000000000001" := by
  refine ⟨roundingStore_eq, ?_, ?_, ?_⟩
  · norm_num
  · norm_num
  · decide!

/-- C1, amended: for every create request with its required values present,
numbers for every quantity and rate and a number `t` for the tax rate, the
route computes in double arithmetic, each operation rounded to the nearest
double: `subtotal` is the sum, taken from 0 in list order, of the products
`quantity * rate`; `taxAmount` is `subtotal * (t / 100)`; `total` is
`subtotal + taxAmount`.  When the total is a number the create answers success
and stores the invoice row with these three values and the tax rate. -/
theorem create_computes_double_totals (s : Store) (u : Nat) (req : CreateRequest)
    (number name issue due : String) (t : ℚ) (tot : Dbl)
    (hnum : req.invoiceNumber = some number) (hname : req.clientName = some name)
    (hissue : req.issueDate = some issue) (hdue : req.dueDate = some due)
    (htax : req.taxRate = JsonNum.num t)
    (hitems : ∀ item ∈ req.items, item.complete = true)
    (htot : (calcTotals req.items req.taxRate).2.2 = some tot) :
    ∃ (sub tax : Dbl) (s1 : Store) (row : InvoiceRow),
      (req.items.map fun i => jsMul i.quantity.toNumber i.rate.toNumber).foldl jsAdd
        (some (Dbl.fin 0)) = some sub ∧
      jsMul (some sub) (jsDiv100 (some (toDouble t))) = some tax ∧
      jsAdd (some sub) (some tax) = some tot ∧
      calcTotals req.items req.taxRate = (some sub, some tax, some tot) ∧
      createInvoice s u req = (Response.created row.id, s1) ∧
      s1.invoices = s.invoices ++ [row] ∧
      row.subtotal = sub ∧ row.tax_rate = some (toDouble t) ∧
      row.tax_amount = some tax ∧ row.total = tot := by
  obtain ⟨sub, s1, new, hsub, hcreate, hinv, _⟩ :=
    createInvoice_ok s u req number name issue due tot hnum hname hissue hdue
      (fun item hitem => (complete_iff item).1 (hitems item hitem)) htot
  have hsub1 := hsub
  have htot1 := htot
  rw [calcTotals_eq] at hsub1 htot1
  simp only at hsub1 htot1
  rw [hsub1, htax] at htot1
  simp only [JsonNum.toNumber] at htot1
  cases htaxv : jsMul (some sub) (jsDiv100 (some (toDouble t))) with
  | none =>
    rw [htaxv, jsAdd_none_right] at htot1
    cases htot1
  | some tax =>
    rw [htaxv] at htot1
    have hcalc : calcTotals req.items req.taxRate = (some sub, some tax, some tot) := by
      rw [calcTotals_eq, hsub1, htax]
      simp only [JsonNum.toNumber, htaxv, htot1]
    refine ⟨sub, tax, s1, createdRow s u req number name issue due sub tot, hsub1, htaxv, htot1,
      hcalc, hcreate, hinv, rfl, ?_, ?_, rfl⟩
    · show req.taxRate.toSql = _
      rw [htax]; rfl
    · show (calcTotals req.items req.taxRate).2.1 = _
      rw [hcalc]

/-- C1 amended, at the end-to-end example: items (10, 50) and (1, 120) at tax
rate 8 give subtotal 620, and as tax amount and total the doubles nearest to
49.6 and 669.6, which `toFixed(2)` shows as 49.60 and 669.60. -/
theorem create_computes_double_totals_witness :
    ∃ (s1 : Store) (row : InvoiceRow),
      createInvoice Store.empty 1 exampleRequest = (Response.created row.id, s1) ∧
      s1.invoices = [row] ∧ row.subtotal = Dbl.fin 620 ∧ row.tax_rate = some (Dbl.fin 8) ∧
      row.tax_amount = some (toDouble 49.6) ∧ row.total = toDouble 669.6 ∧
      jsToFixed2 (toDouble 49.6) = "49.60" ∧ jsToFixed2 (toDouble 669.6) = "669.60" := by
  obtain ⟨sub, tax, s1, row, h1, h2, h3, _, h5, h6, h7, h8, h9, h10⟩ :=
    create_computes_double_totals Store.empty 1 exampleRequest "INV-001" "Acme" "2024-01-01"
      "2024-01-31" 8 (toDouble 669.6) rfl rfl rfl rfl rfl (by decide) (by decide!)
  have e1 : some sub = some (Dbl.fin 620) := h1.symm.trans (by decide!)
  cases e1
  have e2 : some tax = some (toDouble 49.6) := h2.symm.trans (by decide!)
  cases e2
  refine ⟨s1, row, h5, by simpa [Store.empty] using h6, h7, ?_, h9, h10, by decide!, by decide!⟩
  rw [h8]
  decide!

/-- C2 as stated fails, twice.  A create whose second item has a `null`
description answers 500 after the invoice row (subtotal 620) and the first item
(amount 500) are written, and the reachable store keeps them.  And the
equations do not hold exactly: in the reachable store after the request with
quantity 1, rate 100 and tax rate 7, the stored tax amount 7 + 2^-50 is not
`subtotal * tax_rate / 100 = 7` and the stored total 107 is not
`subtotal + tax_amount`. -/
theorem create_partway_breaks_subtotal :
    Reachable (applyOp Store.empty (Op.create 1 truncatedRequest)) ∧
    (createInvoice Store.empty 1 truncatedRequest).1 = Response.createFailed ∧
    (∃ r ∈ (applyOp Store.empty (Op.create 1 truncatedRequest)).invoices,
      r.subtotal = Dbl.fin 620 ∧
      storedSum (itemsOf (applyOp Store.empty (Op.create 1 truncatedRequest)) r.id)
        = some (Dbl.fin 500)) ∧
    Reachable (applyOp Store.empty (Op.create 1 roundingRequest)) ∧
    (∃ r ∈ (applyOp Store.empty (Op.create 1 roundingRequest)).invoices,
      r.subtotal = Dbl.fin 100 ∧ r.tax_rate = some (Dbl.fin 7) ∧
      r.tax_amount = some (Dbl.fin (7 + 1 / 2 ^ 50)) ∧ r.total = Dbl.fin 107) ∧
    (7 + 1 / 2 ^ 50 : ℚ) ≠ 100 * 7 / 100 ∧ (107 : ℚ) ≠ 100 + (7 + 1 / 2 ^ 50) := by
  refine ⟨Reachable.step _ _ Reachable.empty, by rw [truncatedStore_eq], ?_,
    Reachable.step _ _ Reachable.empty, ?_, by norm_num, by norm_num⟩
  · simp only [applyOp, truncatedStore_eq]
    exact ⟨exampleRow, List.mem_singleton.2 rfl, rfl, by decide!⟩
  · simp only [applyOp, roundingStore_eq]
    exact ⟨_, List.mem_singleton.2 rfl, rfl, rfl, rfl, rfl⟩

/-- C2, amended: in every store reachable from the empty one by create,
set-status and delete calls, calls that fail part-way included, every stored
invoice has `tax_amount = subtotal * (tax_rate / 100)` and
`total = subtotal + tax_amount` in double arithmetic (each operation rounded to
the nearest double, a `NULL` tax rate counting 0); and every stored invoice
whose create call answered success has as `subtotal` the sum, taken from 0 in
row order in double arithmetic, of the `amount` fields of the line items stored
for it.  Every reachable store comes with the record of its successful
creates. -/
theorem reachable_invoices_consistent :
    (∀ s : Store, Reachable s → ∀ r ∈ s.invoices,
      r.tax_amount = jsMul (some r.subtotal) (jsDiv100 (nullAsZero r.tax_rate)) ∧
      some r.total = jsAdd (some r.subtotal) r.tax_amount) ∧
    (∀ (s : Store) (ok : List Nat), ReachableWith s ok → ∀ r ∈ s.invoices, r.id ∈ ok →
      some r.subtotal = storedSum (itemsOf s r.id)) ∧
    (∀ s : Store, Reachable s → ∃ ok, ReachableWith s ok) :=
  ⟨fun s h => reachable_totals s h, fun s ok h => (reachableWith_recorded s ok h).2,
    fun s h => reachable_with_exists s h⟩

/-- C2 amended, at the store left by a create that failed part-way (invoice 1)
followed by a create that succeeded (invoice 2): both invoices have consistent
tax and total, and invoice 2, the recorded one, has the subtotal of its
items. -/
theorem reachable_invoices_consistent_witness :
    ReachableWith mixedStore [2] ∧
    (∀ r ∈ mixedStore.invoices,
      r.tax_amount = jsMul (some r.subtotal) (jsDiv100 (nullAsZero r.tax_rate)) ∧
      some r.total = jsAdd (some r.subtotal) r.tax_amount) ∧
    { exampleRow with id := 2 } ∈ mixedStore.invoices ∧
    some (Dbl.fin 620) = storedSum (itemsOf mixedStore 2) := by
  have h1 : ReachableWith (applyOp Store.empty (Op.create 1 truncatedRequest))
      (recordOp Store.empty [] (Op.create 1 truncatedRequest)) :=
    ReachableWith.step Store.empty [] _ ReachableWith.empty
  have h2 := ReachableWith.step _ _ (Op.create 1 exampleRequest) h1
  have e1 : recordOp Store.empty [] (Op.create 1 truncatedRequest) = [] := by
    simp only [recordOp, truncatedStore_eq]
  have e2 : recordOp (applyOp Store.empty (Op.create 1 truncatedRequest)) []
      (Op.create 1 exampleRequest) = [2] := by
    simp only [recordOp, applyOp, mixedStore_eq]
  rw [e1, e2] at h2
  have hw : ReachableWith mixedStore [2] := h2
  have hm : { exampleRow with id := 2 } ∈ mixedStore.invoices := by
    simp [mixedStore, mixedStore_eq]
  exact ⟨hw, reachable_invoices_consistent.1 mixedStore (reachable_of_with _ _ hw), hm,
    reachable_invoices_consistent.2.1 mixedStore [2] hw _ hm (by simp [exampleRow])⟩

/-- C3: when the invoice with a given id belongs to account B, then for every
other account A the get, delete and set-status routes called by A on that id
all answer not-found, an answer that carries no field of the invoice, and the
store after delete and after set-status is the store before. -/
theorem other_account_gets_not_found (s : Store) (hpk : PrimaryKey s) (inv : InvoiceRow)
    (hinv : inv ∈ s.invoices) (a : Nat) (hne : a ≠ inv.user_id) (st : Option String) :
    getInvoice s a inv.id = Response.notFound ∧
    deleteInvoice s a inv.id = (Response.notFound, s) ∧
    setStatus s a inv.id st = (Response.notFound, s) :=
  routes_not_found s a inv.id st (owns_other_false s hpk inv hinv a hne)

/-- C3 at the example store: account 2 asks for invoice 1 of account 1. -/
theorem other_account_gets_not_found_witness :
    PrimaryKey exampleStore ∧ exampleRow ∈ exampleStore.invoices ∧ 2 ≠ exampleRow.user_id ∧
    getInvoice exampleStore 2 exampleRow.id = Response.notFound ∧
    deleteInvoice exampleStore 2 exampleRow.id = (Response.notFound, exampleStore) ∧
    setStatus exampleStore 2 exampleRow.id (some "paid") = (Response.notFound, exampleStore) := by
  have hpk : PrimaryKey exampleStore := by
    simp [PrimaryKey, exampleStore, exampleStore_eq]
  have hm : exampleRow ∈ exampleStore.invoices := by
    simp [exampleStore, exampleStore_eq]
  have hne : 2 ≠ exampleRow.user_id := by decide
  exact ⟨hpk, hm, hne, other_account_gets_not_found exampleStore hpk exampleRow hm 2 hne _⟩

/-- C4 as stated fails: a create with an empty invoice number and a blank
client name answers 200 and the invoice and its two items are stored. -/
theorem create_accepts_blank_strings :
    (createInvoice Store.empty 1 blankRequest).1 = Response.created 1 ∧
    (createInvoice Store.empty 1 blankRequest).2.invoices =
      [{ exampleRow with invoice_number := "", client_name := "  " }] ∧
    (createInvoice Store.empty 1 blankRequest).2.items.length = 2 ∧
    (createInvoice Store.empty 1 blankRequest).2 ≠ Store.empty := by
  have h : createInvoice Store.empty 1 blankRequest =
      (Response.created 1,
        { invoices := [{ exampleRow with invoice_number := "", client_name := "  " }],
          invoiceSeq := 1,
          items := [⟨1, 1, "Design", Dbl.fin 10, Dbl.fin 50, Dbl.fin 500⟩,
                    ⟨2, 1, "Hosting", Dbl.fin 1, Dbl.fin 120, Dbl.fin 120⟩],
          itemSeq := 2 }) := by
    decide!
  rw [h]
  refine ⟨rfl, rfl, rfl, ?_⟩
  intro e
  have := congrArg Store.invoiceSeq e
  simp [Store.empty] at this

/-- C4, amended: a create request whose invoice number or client name is
missing (`null` or absent) fails, with the answer 500 of every failed create,
and the store is left as it was.  An empty or blank string is a value like any
other and is not rejected. -/
theorem create_without_number_or_name_fails (s : Store) (u : Nat) (req : CreateRequest)
    (h : req.invoiceNumber = none ∨ req.clientName = none) :
    createInvoice s u req = (Response.createFailed, s) := by
  rcases h with h | h
  · exact createInvoice_missing s u req (Or.inl h)
  · exact createInvoice_missing s u req (Or.inr (Or.inl h))

/-- C4 amended, at the example request without its invoice number. -/
theorem create_without_number_or_name_fails_witness :
    createInvoice exampleStore 1 { exampleRequest with invoiceNumber := none } =
      (Response.createFailed, exampleStore) :=
  create_without_number_or_name_fails exampleStore 1
    { exampleRequest with invoiceNumber := none } (Or.inl rfl)

/-- C5 as stated fails: a create with quantity -1 answers 200 and stores an
invoice row with subtotal -50 and its line item. -/
theorem create_accepts_negative_quantity :
    createInvoice Store.empty 1 negativeRequest =
      (Response.created 1,
        { invoices := [{ exampleRow with subtotal := Dbl.fin (-50),
                                         tax_amount := some (Dbl.fin (-4)),
                                         total := Dbl.fin (-54) }],
          invoiceSeq := 1,
          items := [⟨1, 1, "Refund", Dbl.fin (-1), Dbl.fin 50, Dbl.fin (-50)⟩],
          itemSeq := 1 }) := by
  decide!

/-- C5, amended: the sign of a quantity or rate plays no part in the create
route.  A request with its required values present (invoice number, client
name, both dates, and for every item a description and numbers for quantity
and rate), negative quantities and rates included, whose total computed in
double arithmetic is a number, succeeds: it appends one invoice row, whose
subtotal is the sum from 0 of the products `quantity * rate`, and one
line-item row per item of the request, in order, with the item's description,
quantity and rate and `amount = quantity * rate`. -/
theorem create_ignores_sign (s : Store) (u : Nat) (req : CreateRequest)
    (number name issue due : String) (tot : Dbl)
    (hnum : req.invoiceNumber = some number) (hname : req.clientName = some name)
    (hissue : req.issueDate = some issue) (hdue : req.dueDate = some due)
    (hitems : ∀ item ∈ req.items, item.complete = true)
    (htot : (calcTotals req.items req.taxRate).2.2 = some tot) :
    ∃ (s1 : Store) (row : InvoiceRow) (new : List ItemRow),
      createInvoice s u req = (Response.created row.id, s1) ∧
      s1.invoices = s.invoices ++ [row] ∧
      some row.subtotal =
        (req.items.map fun i => jsMul i.quantity.toNumber i.rate.toNumber).foldl jsAdd
          (some (Dbl.fin 0)) ∧
      row.total = tot ∧
      s1.items = s.items ++ new ∧
      (∀ r ∈ new, r.invoice_id = row.id) ∧
      new.map (fun r => (some r.description, some r.quantity, some r.rate, some r.amount))
        = req.items.map (fun i => (i.description, i.quantity.toSql, i.rate.toSql,
            jsMul i.quantity.toNumber i.rate.toNumber)) := by
  obtain ⟨sub, s1, new, hsub, h0, h1, _, h3, h4, h5⟩ :=
    createInvoice_ok s u req number name issue due tot hnum hname hissue hdue
      (fun item hitem => (complete_iff item).1 (hitems item hitem)) htot
  rw [calcTotals_eq] at hsub
  exact ⟨s1, createdRow s u req number name issue due sub tot, new, h0, h1, hsub.symm, rfl,
    h3, h4, h5⟩

/-- C5 amended, at the request with quantity -1. -/
theorem create_ignores_sign_witness :
    ∃ (s1 : Store) (row : InvoiceRow) (new : List ItemRow),
      createInvoice Store.empty 1 negativeRequest = (Response.created row.id, s1) ∧
      s1.invoices = Store.empty.invoices ++ [row] ∧
      some row.subtotal =
        (negativeRequest.items.map fun i => jsMul i.quantity.toNumber i.rate.toNumber).foldl
          jsAdd (some (Dbl.fin 0)) ∧
      row.total = Dbl.fin (-54) ∧
      s1.items = Store.empty.items ++ new ∧
      (∀ r ∈ new, r.invoice_id = row.id) ∧
      new.map (fun r => (some r.description, some r.quantity, some r.rate, some r.amount))
        = negativeRequest.items.map (fun i => (i.description, i.quantity.toSql, i.rate.toSql,
            jsMul i.quantity.toNumber i.rate.toNumber)) :=
  create_ignores_sign Store.empty 1 negativeRequest "INV-001" "Acme" "2024-01-01" "2024-01-31"
    (Dbl.fin (-54)) rfl rfl rfl rfl (by decide) (by decide!)

/-- C6 as stated fails: the owner of invoice 1 asks for status "archived"; the
route answers 200 and the stored status is "archived", no longer "unpaid". -/
theorem setStatus_accepts_any_value :
    exampleRow.status = some "unpaid" ∧
    setStatus exampleStore 1 1 (some "archived") =
      (Response.statusUpdated,
        { exampleStore with invoices := [{ exampleRow with status := some "archived" }] }) := by
  refine ⟨rfl, ?_⟩
  decide!

/-- C6, amended: set-status does not look at the requested value.  For every
invoice owned by the caller and every requested status, values other than
"unpaid" and "paid" included, the route answers success, the stored status of
that invoice becomes the requested value, the other invoices keep theirs, and
the line items are untouched. -/
theorem setStatus_stores_requested_value (s : Store) (hpk : PrimaryKey s) (inv : InvoiceRow)
    (hinv : inv ∈ s.invoices) (st : Option String) :
    (setStatus s inv.user_id inv.id st).1 = Response.statusUpdated ∧
    (setStatus s inv.user_id inv.id st).2.invoices =
      s.invoices.map (fun r => if r.id = inv.id then { r with status := st } else r) ∧
    (∀ r ∈ (setStatus s inv.user_id inv.id st).2.invoices, r.id = inv.id → r.status = st) ∧
    (setStatus s inv.user_id inv.id st).2.items = s.items := by
  have hmap : (setStatus s inv.user_id inv.id st).2.invoices =
      s.invoices.map (fun r => if r.id = inv.id then { r with status := st } else r) := by
    rw [setStatus_store]
    apply List.map_congr_left
    intro r hr
    rw [owns_owner s hpk inv hinv r hr]
    simp
  refine ⟨?_, hmap, ?_, ?_⟩
  · have hmem : inv ∈ s.invoices.filter (owns inv.id inv.user_id) :=
      List.mem_filter.2 ⟨hinv, by simp [owns]⟩
    have hlen : (s.invoices.filter (owns inv.id inv.user_id)).length ≠ 0 := by
      intro h0
      rw [List.length_eq_zero] at h0
      rw [h0] at hmem
      cases hmem
    simp only [setStatus, hlen, if_false]
  · intro r hr e
    rw [hmap] at hr
    obtain ⟨r0, _, rfl⟩ := List.mem_map.1 hr
    by_cases e0 : r0.id = inv.id
    · simp [e0]
    · simp only [e0, if_false] at e
  · rw [setStatus_store]

/-- C6 amended, at the example store with the value "archived". -/
theorem setStatus_stores_requested_value_witness :
    PrimaryKey exampleStore ∧ exampleRow ∈ exampleStore.invoices ∧
    (setStatus exampleStore exampleRow.user_id exampleRow.id (some "archived")).1 =
      Response.statusUpdated ∧
    ∀ r ∈ (setStatus exampleStore exampleRow.user_id exampleRow.id (some "archived")).2.invoices,
      r.id = exampleRow.id → r.status = some "archived" := by
  have hpk : PrimaryKey exampleStore := by
    simp [PrimaryKey, exampleStore, exampleStore_eq]
  have hm : exampleRow ∈ exampleStore.invoices := by
    simp [exampleStore, exampleStore_eq]
  have h := setStatus_stores_requested_value exampleStore hpk exampleRow hm (some "archived")
  exact ⟨hpk, hm, h.1, h.2.2.1⟩

/-- C7: when the owner of a stored invoice deletes it, the call succeeds; the
store then holds the invoice rows with another id, unchanged and in order, and
the line items with another `invoice_id`, unchanged and in order; so it holds
neither the invoice row nor a line item of that `invoice_id`; and get-invoice
on that id answers not-found for every account. -/
theorem delete_removes_invoice_and_items (s : Store) (hpk : PrimaryKey s) (inv : InvoiceRow)
    (hinv : inv ∈ s.invoices) :
    (deleteInvoice s inv.user_id inv.id).1 = Response.deleted ∧
    (deleteInvoice s inv.user_id inv.id).2.invoices =
      s.invoices.filter (fun r => r.id != inv.id) ∧
    (deleteInvoice s inv.user_id inv.id).2.items =
      s.items.filter (fun it => it.invoice_id != inv.id) ∧
    (∀ r ∈ (deleteInvoice s inv.user_id inv.id).2.invoices, r.id ≠ inv.id) ∧
    (∀ it ∈ (deleteInvoice s inv.user_id inv.id).2.items, it.invoice_id ≠ inv.id) ∧
    ∀ a : Nat, getInvoice (deleteInvoice s inv.user_id inv.id).2 a inv.id = Response.notFound := by
  have hmem : inv ∈ s.invoices.filter (owns inv.id inv.user_id) :=
    List.mem_filter.2 ⟨hinv, by simp [owns]⟩
  have hinvs : (deleteInvoice s inv.user_id inv.id).2.invoices =
      s.invoices.filter (fun r => r.id != inv.id) := by
    rw [deleteInvoice_store]
    apply List.filter_congr
    intro r hr
    rw [owns_owner s hpk inv hinv r hr]
    rfl
  have hitems : (deleteInvoice s inv.user_id inv.id).2.items =
      s.items.filter (fun it => it.invoice_id != inv.id) := by
    rw [deleteInvoice_store]
    apply List.filter_congr
    intro it _
    by_cases e : it.invoice_id = inv.id
    · have hf : ((s.invoices.filter (owns inv.id inv.user_id)).all
          fun r => r.id != it.invoice_id) = false := by
        rw [List.all_eq_false]
        exact ⟨inv, hmem, by simp [e]⟩
      rw [hf]; simp [e]
    · have ht : ((s.invoices.filter (owns inv.id inv.user_id)).all
          fun r => r.id != it.invoice_id) = true := by
        rw [List.all_eq_true]
        intro r hr
        have := ((owns_eq_true _ _ _).1 (List.mem_filter.1 hr).2).1
        simp only [bne_iff_ne, ne_eq, this]
        exact fun h => e h.symm
      rw [ht]; simp [e]
  have hno : ∀ r ∈ (deleteInvoice s inv.user_id inv.id).2.invoices, r.id ≠ inv.id := by
    intro r hr
    rw [hinvs] at hr
    simpa using (List.mem_filter.1 hr).2
  refine ⟨?_, hinvs, hitems, hno, ?_, ?_⟩
  · have hlen : (s.invoices.filter (owns inv.id inv.user_id)).length ≠ 0 := by
      intro h0
      rw [List.length_eq_zero] at h0
      rw [h0] at hmem
      cases hmem
    simp only [deleteInvoice, hlen, if_false]
  · intro it hit
    rw [hitems] at hit
    simpa using (List.mem_filter.1 hit).2
  · intro a
    have hfind : (deleteInvoice s inv.user_id inv.id).2.invoices.find? (owns inv.id a) = none := by
      rw [List.find?_eq_none]
      intro r hr h
      exact hno r hr ((owns_eq_true _ _ _).1 h).1
    simp only [getInvoice, hfind]

/-- C7 at the example store: account 1 deletes its invoice 1, which leaves
both tables empty. -/
theorem delete_removes_invoice_and_items_witness :
    PrimaryKey exampleStore ∧ exampleRow ∈ exampleStore.invoices ∧
    (deleteInvoice exampleStore exampleRow.user_id exampleRow.id).1 = Response.deleted ∧
    (deleteInvoice exampleStore exampleRow.user_id exampleRow.id).2.invoices = [] ∧
    (deleteInvoice exampleStore exampleRow.user_id exampleRow.id).2.items = [] ∧
    getInvoice (deleteInvoice exampleStore exampleRow.user_id exampleRow.id).2 1 exampleRow.id =
      Response.notFound := by
  have hpk : PrimaryKey exampleStore := by
    simp [PrimaryKey, exampleStore, exampleStore_eq]
  have hm : exampleRow ∈ exampleStore.invoices := by
    simp [exampleStore, exampleStore_eq]
  have h := delete_removes_invoice_and_items exampleStore hpk exampleRow hm
  refine ⟨hpk, hm, h.1, ?_, ?_, h.2.2.2.2.2 1⟩
  · rw [h.2.1]; decide!
  · rw [h.2.2.1]; decide!

/-- C8 fails on the code: a create request without `taxRate` is never stored.
Whatever the store and the other fields, the route answers 500 and leaves the
store as it was, because `taxAmount` and `total` are `NaN` and `total` is a
`NOT NULL` column; at the example request without its tax rate, the empty store
stays empty, while the same request with tax rate 0 is stored with tax
amount 0 and total equal to the subtotal. -/
theorem create_without_taxRate_fails :
    (∀ (s : Store) (u : Nat) (req : CreateRequest),
      createInvoice s u { req with taxRate := JsonNum.undefined } =
        (Response.createFailed, s)) ∧
    calcTotals exampleRequest.items JsonNum.undefined = (some (Dbl.fin 620), none, none) ∧
    createInvoice Store.empty 1 { exampleRequest with taxRate := JsonNum.undefined } =
      (Response.createFailed, Store.empty) ∧
    (createInvoice Store.empty 1 { exampleRequest with taxRate := JsonNum.num 0 }).2.invoices =
      [{ exampleRow with tax_rate := some (Dbl.fin 0), tax_amount := some (Dbl.fin 0),
                         total := Dbl.fin 620 }] := by
  refine ⟨?_, ?_, ?_, ?_⟩
  · intro s u req
    exact createInvoice_missing s u _ (Or.inr (Or.inr (Or.inr (Or.inr rfl))))
  · decide!
  · exact createInvoice_missing _ _ _ (Or.inr (Or.inr (Or.inr (Or.inr rfl))))
  · decide!

/-- The totals block of the example invoice, entered at `y = 0`. -/
theorem exampleTotals_eq :
    renderTotals jsFmt exampleRow 0 = some
      [ PdfOp.text "Subtotal:" 400 15 none, PdfOp.text "$620.00" 470 15 none,
        PdfOp.text "Tax (8%):" 400 35 none, PdfOp.text "$49.60" 470 35 none,
        PdfOp.fontSize 12, PdfOp.font "Helvetica-Bold",
        PdfOp.text "Total:" 400 55 none, PdfOp.text "$669.60" 470 55 none ] := by
  decide!

/-- A create with `taxRate: null` stores the invoice with a `NULL` tax rate, tax
amount 0 and total equal to the subtotal. -/
theorem untaxedStore_eq :
    createInvoice Store.empty 1 { exampleRequest with taxRate := JsonNum.null } =
      (Response.created 1,
        { invoices := [untaxedRow], invoiceSeq := 1,
          items := [⟨1, 1, "Design", Dbl.fin 10, Dbl.fin 50, Dbl.fin 500⟩,
                    ⟨2, 1, "Hosting", Dbl.fin 1, Dbl.fin 120, Dbl.fin 120⟩],
          itemSeq := 2 }) := by
  decide!

/-- Every invoice of a reachable store has a tax amount that is not `NULL`. -/
theorem reachable_taxAmount (s : Store) (h : Reachable s) (inv : InvoiceRow)
    (hinv : inv ∈ s.invoices) : inv.tax_amount ≠ none := by
  obtain ⟨a, ha⟩ := taxAmount_of_consistent inv (reachable_totals s h inv hinv)
  rw [ha]
  exact Option.some_ne_none a

/-- C9 as stated fails on the text of the tax line: for the example invoice
(tax rate 8) the totals block is subtotal line, tax line, total line, and the
label drawn on the tax line is "Tax (8%):", ending in a colon; no call draws
the text "Tax (8%)". -/
theorem tax_label_ends_in_colon :
    renderTotals jsFmt exampleRow 0 = some
      [ PdfOp.text "Subtotal:" 400 15 none, PdfOp.text "$620.00" 470 15 none,
        PdfOp.text "Tax (8%):" 400 35 none, PdfOp.text "$49.60" 470 35 none,
        PdfOp.fontSize 12, PdfOp.font "Helvetica-Bold",
        PdfOp.text "Total:" 400 55 none, PdfOp.text "$669.60" 470 55 none ] ∧
    ∀ ops, renderTotals jsFmt exampleRow 0 = some ops →
      ∀ (x y : ℚ) (w : Option ℚ), PdfOp.text "Tax (8%)" x y w ∉ ops := by
  refine ⟨exampleTotals_eq, ?_⟩
  intro ops h x y w hmem
  rw [exampleTotals_eq] at h
  cases h
  simp only [List.mem_cons, PdfOp.text.injEq, List.mem_singleton, reduceCtorEq, false_or,
    List.not_mem_nil, or_false] at hmem
  rcases hmem with h | h | h | h | h | h <;> exact absurd h.1 (by decide)

/-- C9, amended: for every invoice row, with a tax rate that is a number or
`NULL`, whose tax amount is not `NULL` when its tax rate is greater than 0 (so
for every invoice the create route stores), the totals block is drawn in full
and consists of a subtotal line, then a tax line exactly when the tax rate is
greater than 0, then a total line.  The label of the tax line is
"Tax (<rate>%):", the stored tax rate printed as a plain number and the label
closed by a colon; for a tax rate that is 0, negative or `NULL` no tax line is
drawn. -/
theorem totals_block_lines (fmt : NumFmt) (inv : InvoiceRow) (y0 : ℚ)
    (h : taxed inv = true → inv.tax_amount ≠ none) :
    renderTotals fmt inv y0 = some (
      [ PdfOp.text "Subtotal:" 400 (y0 + 15) none,
        PdfOp.text ("$" ++ fmt.toFixed2 inv.subtotal) 470 (y0 + 15) none ] ++
      (match inv.tax_rate, inv.tax_amount with
        | some r, some a =>
          if r.isPos then
            [ PdfOp.text ("Tax (" ++ fmt.numToString r ++ "%):") 400 (y0 + 35) none,
              PdfOp.text ("$" ++ fmt.toFixed2 a) 470 (y0 + 35) none ]
          else []
        | _, _ => []) ++
      [ PdfOp.fontSize 12, PdfOp.font "Helvetica-Bold",
        PdfOp.text "Total:" 400 (if taxed inv then y0 + 55 else y0 + 35) none,
        PdfOp.text ("$" ++ fmt.toFixed2 inv.total) 470 (if taxed inv then y0 + 55 else y0 + 35)
          none ]) :=
  renderTotals_eq fmt inv y0 h

/-- C9 amended, at the two stored forms of the example invoice: with tax rate 8
the block has the tax line "Tax (8%):", and with the `NULL` tax rate that
`taxRate: null` leaves it has none. -/
theorem totals_block_lines_witness :
    exampleRow ∈ exampleStore.invoices ∧
    (taxed exampleRow = true → exampleRow.tax_amount ≠ none) ∧
    renderTotals jsFmt exampleRow 0 = some
      [ PdfOp.text "Subtotal:" 400 15 none, PdfOp.text "$620.00" 470 15 none,
        PdfOp.text "Tax (8%):" 400 35 none, PdfOp.text "$49.60" 470 35 none,
        PdfOp.fontSize 12, PdfOp.font "Helvetica-Bold",
        PdfOp.text "Total:" 400 55 none, PdfOp.text "$669.60" 470 55 none ] ∧
    (taxed untaxedRow = true → untaxedRow.tax_amount ≠ none) ∧
    renderTotals jsFmt untaxedRow 0 = some
      [ PdfOp.text "Subtotal:" 400 15 none, PdfOp.text "$620.00" 470 15 none,
        PdfOp.fontSize 12, PdfOp.font "Helvetica-Bold",
        PdfOp.text "Total:" 400 35 none, PdfOp.text "$620.00" 470 35 none ] := by
  have h1 : taxed exampleRow = true → exampleRow.tax_amount ≠ none := by decide!
  have h2 : taxed untaxedRow = true → untaxedRow.tax_amount ≠ none := by decide!
  refine ⟨by simp [exampleStore, exampleStore_eq], h1, ?_, h2, ?_⟩
  · rw [totals_block_lines jsFmt exampleRow 0 h1]
    decide!
  · rw [totals_block_lines jsFmt untaxedRow 0 h2]
    decide!

/-- C10: for every invoice row whose tax amount is not `NULL` when its tax rate
is greater than 0 (so for every invoice the create route stores), every list of
`n` line items and every table top `t`, the calls drawn are: the header row at
`y = t` with its four texts at `x = 50, 300, 370, 470`; the separator rule at
`y = t + 15`; one row per item, in the order of the list, the row of index `i`
(from 0) at `y = t + 25 + 25 * i` with the same four `x`; the closing rule at
`y = t + 25 + 25 * n`; the subtotal line at `y = t + 40 + 25 * n`; and the
total line at `y = t + 60 + 25 * n` when the tax rate is not greater than 0
(a `NULL` tax rate included), at `y = t + 80 + 25 * n` when it is (the tax line
then sits at `y = t + 60 + 25 * n`). -/
theorem table_layout (fmt : NumFmt) (inv : InvoiceRow) (items : List ItemRow) (t : ℚ)
    (h : taxed inv = true → inv.tax_amount ≠ none) :
    renderTable fmt t inv items = some (
      [ PdfOp.fontSize 10, PdfOp.font "Helvetica-Bold",
        PdfOp.text "Description" 50 t none, PdfOp.text "Qty" 300 t none,
        PdfOp.text "Rate" 370 t none, PdfOp.text "Amount" 470 t none,
        PdfOp.rule 50 (t + 15) 550 (t + 15), PdfOp.font "Helvetica" ] ++
      (items.mapIdx fun i item =>
        [ PdfOp.text item.description 50 (t + 25 + 25 * i) (some 240),
          PdfOp.text (fmt.numToString item.quantity) 300 (t + 25 + 25 * i) none,
          PdfOp.text ("$" ++ fmt.toFixed2 item.rate) 370 (t + 25 + 25 * i) none,
          PdfOp.text ("$" ++ fmt.toFixed2 item.amount) 470 (t + 25 + 25 * i) none ]).flatten ++
      [ PdfOp.rule 50 (t + 25 + 25 * items.length) 550 (t + 25 + 25 * items.length) ] ++
      [ PdfOp.text "Subtotal:" 400 (t + 40 + 25 * items.length) none,
        PdfOp.text ("$" ++ fmt.toFixed2 inv.subtotal) 470 (t + 40 + 25 * items.length) none ] ++
      (match inv.tax_rate, inv.tax_amount with
        | some r, some a =>
          if r.isPos then
            [ PdfOp.text ("Tax (" ++ fmt.numToString r ++ "%):") 400
                (t + 60 + 25 * items.length) none,
              PdfOp.text ("$" ++ fmt.toFixed2 a) 470 (t + 60 + 25 * items.length) none ]
          else []
        | _, _ => []) ++
      [ PdfOp.fontSize 12, PdfOp.font "Helvetica-Bold",
        PdfOp.text "Total:" 400
          (if taxed inv then t + 80 + 25 * items.length else t + 60 + 25 * items.length) none,
        PdfOp.text ("$" ++ fmt.toFixed2 inv.total) 470
          (if taxed inv then t + 80 + 25 * items.length else t + 60 + 25 * items.length)
          none ]) := by
  have e1 : t + 25 + 25 * (items.length : ℚ) + 15 = t + 40 + 25 * items.length := by ring
  have e2 : t + 25 + 25 * (items.length : ℚ) + 35 = t + 60 + 25 * items.length := by ring
  have e3 : t + 25 + 25 * (items.length : ℚ) + 55 = t + 80 + 25 * items.length := by ring
  simp only [renderTable, renderItems_eq, renderTotals_eq fmt inv _ h, tableHeader,
    itemRow, e1, e2, e3, List.append_assoc]

/-- C10 at the example store, with the table top at 300: two rows at 325 and
350, closing rule at 375, subtotal at 390, tax at 410, total at 430; and for
the same invoice stored with a `NULL` tax rate the total is at 410. -/
theorem table_layout_witness :
    (taxed exampleRow = true → exampleRow.tax_amount ≠ none) ∧
    renderTable jsFmt 300 exampleRow exampleStore.items = some
      [ PdfOp.fontSize 10, PdfOp.font "Helvetica-Bold",
        PdfOp.text "Description" 50 300 none, PdfOp.text "Qty" 300 300 none,
        PdfOp.text "Rate" 370 300 none, PdfOp.text "Amount" 470 300 none,
        PdfOp.rule 50 315 550 315, PdfOp.font "Helvetica",
        PdfOp.text "Design" 50 325 (some 240), PdfOp.text "10" 300 325 none,
        PdfOp.text "$50.00" 370 325 none, PdfOp.text "$500.00" 470 325 none,
        PdfOp.text "Hosting" 50 350 (some 240), PdfOp.text "1" 300 350 none,
        PdfOp.text "$120.00" 370 350 none, PdfOp.text "$120.00" 470 350 none,
        PdfOp.rule 50 375 550 375,
        PdfOp.text "Subtotal:" 400 390 none, PdfOp.text "$620.00" 470 390 none,
        PdfOp.text "Tax (8%):" 400 410 none, PdfOp.text "$49.60" 470 410 none,
        PdfOp.fontSize 12, PdfOp.font "Helvetica-Bold",
        PdfOp.text "Total:" 400 430 none, PdfOp.text "$669.60" 470 430 none ] ∧
    (taxed untaxedRow = true → untaxedRow.tax_amount ≠ none) ∧
    renderTable jsFmt 300 untaxedRow [] = some
      [ PdfOp.fontSize 10, PdfOp.font "Helvetica-Bold",
        PdfOp.text "Description" 50 300 none, PdfOp.text "Qty" 300 300 none,
        PdfOp.text "Rate" 370 300 none, PdfOp.text "Amount" 470 300 none,
        PdfOp.rule 50 315 550 315, PdfOp.font "Helvetica",
        PdfOp.rule 50 325 550 325,
        PdfOp.text "Subtotal:" 400 340 none, PdfOp.text "$620.00" 470 340 none,
        PdfOp.fontSize 12, PdfOp.font "Helvetica-Bold",
        PdfOp.text "Total:" 400 360 none, PdfOp.text "$620.00" 470 360 none ] := by
  have h1 : taxed exampleRow = true → exampleRow.tax_amount ≠ none := by decide!
  have h2 : taxed untaxedRow = true → untaxedRow.tax_amount ≠ none := by decide!
  refine ⟨h1, ?_, h2, ?_⟩
  · rw [table_layout jsFmt exampleRow exampleStore.items 300 h1]
    decide!
  · rw [table_layout jsFmt untaxedRow [] 300 h2]
    decide!

end InvoiceServer
